import Mathlib

/-!
Verification of the local document retrieval and answer-synthesis engine of the
AI-Teacher repository (PDF text chunking, keyword scoring, confidence
estimation, template answers, FAQ analytics, text cleaning).

Strings are modelled as lists of characters (`Str`).  Each definition is a
shallow embedding of the corresponding TypeScript function; JavaScript regular
expression replacements are embedded as dedicated scanners that reproduce the
semantics of the concrete pattern used at that call site (leftmost match,
greedy quantifiers, non-overlapping global replacement, scanning resumes after
the end of each match).  JavaScript numbers are modelled as rationals.
-/

set_option maxHeartbeats 1000000

abbrev Str := List Char

/-- Character class of the JavaScript regular expression `\w` (`[A-Za-z0-9_]`). -/
def jsWord (c : Char) : Bool :=
  (('a' ≤ c ∧ c ≤ 'z') ∨ ('A' ≤ c ∧ c ≤ 'Z') ∨ ('0' ≤ c ∧ c ≤ '9') ∨ c = '_')

/-- Character class of the JavaScript `\d` (`[0-9]`). -/
def jsDigit (c : Char) : Bool := ('0' ≤ c ∧ c ≤ '9')

/-- Character class of the JavaScript `\s` (whitespace, including the Unicode
space characters and the BOM), which is also the set removed by
`String.prototype.trim`. -/
def jsSpace (c : Char) : Bool :=
  (c = ' ' ∨ c = '\t' ∨ c = '\n' ∨ c = '\r' ∨ c.val = 0x0b ∨ c.val = 0x0c ∨
    c.val = 0xa0 ∨ c.val = 0x1680 ∨ (0x2000 ≤ c.val ∧ c.val ≤ 0x200a) ∨
    c.val = 0x2028 ∨ c.val = 0x2029 ∨ c.val = 0x202f ∨ c.val = 0x205f ∨
    c.val = 0x3000 ∨ c.val = 0xfeff)

/-- ASCII upper case letters, the class `[A-Z]`. -/
def jsUpper (c : Char) : Bool := ('A' ≤ c ∧ c ≤ 'Z')

/-- ASCII lower case letters, the class `[a-z]`. -/
def jsLower (c : Char) : Bool := ('a' ≤ c ∧ c ≤ 'z')

/-- Per-character lower casing, modelling `String.prototype.toLowerCase` on the
ASCII fragment this development evaluates. -/
def lowerStr (s : Str) : Str := s.map Char.toLower

/-- Boolean prefix test. -/
def pfx : Str → Str → Bool
  | [], _ => true
  | _ :: _, [] => false
  | a :: as, b :: bs => a = b && pfx as bs

/-- Boolean substring test, the semantics of `String.prototype.includes`. -/
def subStr (needle : Str) : Str → Bool
  | [] => pfx needle []
  | c :: t => pfx needle (c :: t) || subStr needle t

/-- Leading whitespace removal (`trimStart`). -/
def jsTrimStart (s : Str) : Str := s.dropWhile jsSpace

/-- Trailing whitespace removal (`trimEnd`). -/
def jsTrimEnd (s : Str) : Str := (s.reverse.dropWhile jsSpace).reverse

/-- `String.prototype.trim`. -/
def jsTrim (s : Str) : Str := jsTrimStart (jsTrimEnd s)

theorem length_dropWhile_le (p : Char → Bool) (l : Str) :
    (l.dropWhile p).length ≤ l.length := by
  induction l with
  | nil => simp [List.dropWhile]
  | cons c t ih =>
    by_cases h : p c <;> simp [List.dropWhile, h] <;> omega

/-- Splitting on a character class: the semantics of `String.prototype.split`
with a separator regex `[class]+` (for example `/[.!?]+/` or `/\s+/`): maximal
separator runs delimit the pieces, and empty pieces are produced at the ends
and for an empty input, exactly as in JavaScript. -/
def jsSplit (p : Char → Bool) : Str → List Str
  | [] => [[]]
  | c :: t =>
    let rest := jsSplit p t
    if p c then
      match t with
      | [] => [[], []]
      | d :: _ => if p d then rest else [] :: rest
    else
      match rest with
      | [] => [[c]]
      | piece :: r => (c :: piece) :: r

/-- Generic global-replace scanner.  `step` inspects the text at the current
position; `some (r, k)` means a match of length `k + 1` starts here and is
replaced by `r`, after which scanning resumes immediately after the match,
reproducing JavaScript's non-overlapping global `replace`. -/
def scanReplGo (step : Str → Option (Str × Nat)) : Nat → Str → Str
  | _, [] => []
  | Nat.succ skip, _ :: t => scanReplGo step skip t
  | 0, c :: t =>
    match step (c :: t) with
    | some (r, k) => r ++ scanReplGo step k t
    | none => c :: scanReplGo step 0 t

def scanRepl (step : Str → Option (Str × Nat)) (s : Str) : Str :=
  scanReplGo step 0 s

/-- Global replacement of a literal (non-empty) pattern, the behaviour of
`String.prototype.replace` with a `g`-flagged escaped literal. -/
def replaceAllLit (key val : Str) (s : Str) : Str :=
  scanRepl (fun s' => if pfx key s' then some (val, key.length - 1) else none) s

/-- Length of the longest prefix satisfying `p`. -/
def countWhile (p : Char → Bool) (s : Str) : Nat := (s.takeWhile p).length

/-- Decimal digits of a natural number, used for JavaScript template literals
such as `${index + 1}`. -/
def natToCharsGo : Nat → Nat → Str
  | 0, _ => []
  | Nat.succ fuel, n =>
    if n < 10 then [Char.ofNat (48 + n)]
    else natToCharsGo fuel (n / 10) ++ [Char.ofNat (48 + n % 10)]

def natToChars (n : Nat) : Str := natToCharsGo (n + 1) n

/-- One character of the text of a JavaScript word-boundary `\b`: true when the
optional character is a word character (absent characters count as non-word). -/
def wordAt : Option Char → Bool
  | none => false
  | some c => jsWord c

/-- Word-boundary search: whether the regex `\b<word>\b` (with the word taken
literally) matches somewhere in `content`.  `prev` carries the character just
before the current position. -/
def wbGo (word : Str) (prev : Option Char) : Str → Bool
  | [] => false
  | c :: t =>
    (pfx word (c :: t) &&
      (wordAt prev != wordAt (some c)) &&
      (wordAt ((c :: t).get? (word.length - 1)) != wordAt ((c :: t).get? word.length)))
    || wbGo word (some c) t

/-- Test of the regex `\b<word>\b` against `content`, as built by the scoring
code from a (lower-cased) query word; the word is treated literally, which is
exact for the metacharacter-free words this development evaluates. -/
def wbTest (word content : Str) : Bool :=
  word ≠ [] && wbGo word none content

section UtilLemmas

theorem pfx_iff (a : Str) : ∀ b, pfx a b = true ↔ ∃ q, b = a ++ q := by
  induction a with
  | nil => intro b; simp [pfx]
  | cons x xs ih =>
    intro b
    cases b with
    | nil => simp [pfx]
    | cons y ys =>
      simp only [pfx, Bool.and_eq_true, decide_eq_true_eq, ih]
      constructor
      · rintro ⟨rfl, q, rfl⟩; exact ⟨q, rfl⟩
      · rintro ⟨q, h⟩
        injection h with h1 h2
        exact ⟨h1.symm, q, h2⟩

theorem subStr_iff (a : Str) : ∀ b, subStr a b = true ↔ ∃ p q, b = p ++ a ++ q := by
  intro b
  induction b with
  | nil =>
    simp only [subStr, pfx_iff]
    constructor
    · rintro ⟨q, h⟩
      exact ⟨[], q, by simpa using h⟩
    · rintro ⟨p, q, h⟩
      have hp : p = [] := by
        cases p with
        | nil => rfl
        | cons _ _ => simp at h
      subst hp
      exact ⟨q, by simpa using h⟩
  | cons c t ih =>
    simp only [subStr, Bool.or_eq_true, pfx_iff, ih]
    constructor
    · rintro (⟨q, h⟩ | ⟨p, q, h⟩)
      · exact ⟨[], q, by simpa using h⟩
      · exact ⟨c :: p, q, by simp [h]⟩
    · rintro ⟨p, q, h⟩
      cases p with
      | nil => exact Or.inl ⟨q, by simpa using h⟩
      | cons x xs =>
        injection h with h1 h2
        exact Or.inr ⟨xs, q, h2⟩

theorem subStr_trans {a b c : Str} (h1 : subStr a b = true) (h2 : subStr b c = true) :
    subStr a c = true := by
  rw [subStr_iff] at h1 h2 ⊢
  obtain ⟨p1, q1, rfl⟩ := h1
  obtain ⟨p2, q2, rfl⟩ := h2
  exact ⟨p2 ++ p1, q1 ++ q2, by simp⟩

theorem subStr_of_middle {a p q : Str} (s : Str) (h : s = p ++ a ++ q) :
    subStr a s = true := by
  rw [subStr_iff]; exact ⟨p, q, h⟩

theorem dropWhile_suffix_decomp (p : Char → Bool) (s : Str) :
    ∃ pre, s = pre ++ s.dropWhile p := by
  induction s with
  | nil => exact ⟨[], rfl⟩
  | cons c t ih =>
    by_cases h : p c
    · obtain ⟨pre, hpre⟩ := ih
      exact ⟨c :: pre, by simp [List.dropWhile, h, ← hpre]⟩
    · exact ⟨[], by simp [List.dropWhile, h]⟩

theorem subStr_of_trim {a s : Str} (h : subStr a (jsTrim s) = true) :
    subStr a s = true := by
  have h1 : subStr (jsTrim s) (jsTrimEnd s) = true := by
    obtain ⟨pre, hpre⟩ := dropWhile_suffix_decomp jsSpace (jsTrimEnd s)
    rw [subStr_iff]
    exact ⟨pre, [], by simp [← hpre, jsTrim, jsTrimStart]⟩
  have h2 : subStr (jsTrimEnd s) s = true := by
    obtain ⟨pre, hpre⟩ := dropWhile_suffix_decomp jsSpace s.reverse
    rw [subStr_iff]
    refine ⟨[], pre.reverse, ?_⟩
    have h3 := congrArg List.reverse hpre
    simp only [List.reverse_reverse, List.reverse_append] at h3
    simpa [jsTrimEnd] using h3
  exact subStr_trans (subStr_trans h h1) h2

end UtilLemmas

/-! ## TextProcessor (src/src/utils/textProcessor.ts)

Embeddings of `TextProcessor`.  The two static tables are taken verbatim from
the source file (whose string literals are double-encoded); `commonOCRErrors`
is a JavaScript `Map`, so a duplicated key keeps its first position with its
last value, while `encodingFixes` is a plain array applied entry by entry. -/

def commonOCRErrors : List (Str × Str) := [
  ("rn".data, "m".data),
  ("vv".data, "w".data),
  ("cl".data, "d".data),
  ("II".data, "ll".data),
  ("1l".data, "ll".data),
  ("0".data, "O".data),
  ("5".data, "S".data),
  ("8".data, "B".data),
  ("6".data, "G".data),
  ("1".data, "I".data),
  ("2".data, "Z".data),
  ("\u0432\u201A\u00AC".data, "C".data),
  ("\u0413\u045E\u0432\u201A\u00AC\u0432\u201E\u045E".data, "\u0027".data),
  ("\u0413\u045E\u0432\u201A\u00AC\u0415\u201C".data, "\"".data),
  ("\u0413\u045E\u0432\u201A\u00AC\u009D".data, "\"".data),
  ("\u0413\u045E\u0432\u201A\u00AC\"".data, "\u0432\u0402\u201D".data),
  ("  ".data, " ".data),
  ("   ".data, " ".data),
  ("\t".data, " ".data),
  (" \n".data, "\n".data),
  ("\n ".data, "\n".data),
  ("\u043F\u00AC\u0403".data, "fi".data),
  ("\u043F\u00AC\u201A".data, "fl".data),
  ("\u043F\u00AC\u0402".data, "ff".data),
  ("\u043F\u00AC\u0453".data, "ffi".data),
  ("\u043F\u00AC\u201E".data, "ffl".data),
  ("\u041E\u00B1".data, "alpha".data),
  ("\u041E\u0406".data, "beta".data),
  ("\u041E\u0456".data, "gamma".data),
  ("\u041E\u0491".data, "delta".data),
  ("\u041E\u00B5".data, "epsilon".data),
  ("\u041E\u0451".data, "theta".data),
  ("\u041E\u00BB".data, "lambda".data),
  ("\u041E\u0458".data, "mu".data),
  ("\u041F\u0402".data, "pi".data),
  ("\u041F\u0453".data, "sigma".data),
  ("\u041F\u2020".data, "phi".data)]

def encodingFixLiterals : List (Str × Str) := [
  ("\u0413\u045E\u0432\u201A\u00AC\u0432\u201E\u045E".data, "\u0027".data),
  ("\u0413\u045E\u0432\u201A\u00AC\u0415\u201C".data, "\"".data),
  ("\u0413\u045E\u0432\u201A\u00AC\u009D".data, "\"".data),
  ("\u0413\u045E\u0432\u201A\u00AC\"".data, "\u0432\u0402\u201C".data),
  ("\u0413\u045E\u0432\u201A\u00AC\"".data, "\u0432\u0402\u201D".data),
  ("\u0413\u201A".data, "".data),
  ("\u0413\u045E\u0432\u201A\u00AC\u0412\u045E".data, "\u0432\u0402\u045E".data),
  ("\u0413\u045E\u0432\u201A\u00AC\u0412\u00A6".data, "\u0432\u0402\u00A6".data),
  ("\u0413\u0453\u0412\u040E".data, "\u0413\u040E".data),
  ("\u0413\u0453\u0412\u00A9".data, "\u0413\u00A9".data),
  ("\u0413\u0453\u0412\u00AD".data, "\u0413\u00AD".data),
  ("\u0413\u0453\u0412\u0456".data, "\u0413\u0456".data),
  ("\u0413\u0453\u0412\u0454".data, "\u0413\u0454".data),
  ("\u0413\u0453\u0412\u00B1".data, "\u0413\u00B1".data),
  ("\u0413\u0453\u0412\u00A7".data, "\u0413\u00A7".data),
  ("\u0000".data, "".data)]

def academicAcronyms : List (Str × Str) := [
  ("AI".data, "Artificial Intelligence".data),
  ("ML".data, "Machine Learning".data),
  ("NLP".data, "Natural Language Processing".data),
  ("CV".data, "Computer Vision".data),
  ("DL".data, "Deep Learning".data),
  ("NN".data, "Neural Network".data),
  ("CNN".data, "Convolutional Neural Network".data),
  ("RNN".data, "Recurrent Neural Network".data),
  ("LSTM".data, "Long Short-Term Memory".data),
  ("GAN".data, "Generative Adversarial Network".data),
  ("API".data, "Application Programming Interface".data),
  ("HTTP".data, "HyperText Transfer Protocol".data),
  ("URL".data, "Uniform Resource Locator".data),
  ("PDF".data, "Portable Document Format".data),
  ("RGB".data, "Red Green Blue".data),
  ("CPU".data, "Central Processing Unit".data),
  ("GPU".data, "Graphics Processing Unit".data),
  ("RAM".data, "Random Access Memory".data),
  ("SSD".data, "Solid State Drive".data),
  ("HDD".data, "Hard Disk Drive".data),
  ("UI".data, "User Interface".data),
  ("UX".data, "User Experience".data),
  ("IoT".data, "Internet of Things".data),
  ("VR".data, "Virtual Reality".data),
  ("AR".data, "Augmented Reality".data),
  ("MR".data, "Mixed Reality".data)]

/-- Unicode normalisation `String.prototype.normalize("NFKC")` is a host
builtin.  NFKC is the identity on every ASCII string, and no theorem in this
development depends on its behaviour outside ASCII, so it is embedded as the
identity. -/
def nfkcNormalize (s : Str) : Str := s

/-- Stage 1 of the cleaning pipeline, `fixEncodingIssues`: the literal
replacement chain, removal of U+FFFD / U+FEFF / U+0000, then NFKC. -/
def fixEncodingIssues (s : Str) : Str :=
  let afterLits :=
    (encodingFixLiterals.take 15).foldl (fun t kv => replaceAllLit kv.1 kv.2 t) s
  let afterClass := afterLits.filter (fun c => ¬(c.val = 0xfffd ∨ c.val = 0xfeff))
  let afterNul := afterClass.filter (fun c => c.val ≠ 0)
  nfkcNormalize afterNul

/-- Step of `(\w)-\s*\n\s*(\w) → $1$2` (words broken across a line break): a
word character, a hyphen, a whitespace run containing at least one newline,
then a word character. -/
def stepHyphenBreak : Str → Option (Str × Nat) := fun s =>
  match s with
  | c :: d :: u =>
    if jsWord c ∧ d = '-' then
      let k := countWhile jsSpace u
      if (u.take k).contains '\n' then
        match u.drop k with
        | w2 :: _ => if jsWord w2 then some ([c, w2], k + 2) else none
        | [] => none
      else none
    else none
  | _ => none

/-- Step of `(\w)\s+(\w) → $1$2` (the OCR "multiple spaces within words" fix):
a word character, at least one whitespace character, a word character. -/
def stepWordGap : Str → Option (Str × Nat) := fun s =>
  match s with
  | c :: t =>
    if jsWord c then
      let k := countWhile jsSpace t
      if k > 0 then
        match t.drop k with
        | w2 :: _ => if jsWord w2 then some ([c, w2], k + 1) else none
        | [] => none
      else none
    else none
  | [] => none

/-- Step of `\s+([,.;:!?]) → $1`. -/
def stepSpacePunct : Str → Option (Str × Nat) := fun s =>
  let k := countWhile jsSpace s
  if k > 0 then
    match s.drop k with
    | p :: _ =>
      if p = ',' ∨ p = '.' ∨ p = ';' ∨ p = ':' ∨ p = '!' ∨ p = '?' then
        some ([p], k)
      else none
    | [] => none
  else none

/-- Step of `([.!?])\s*([A-Z]) → $1 $2`. -/
def stepPunctSpaceUpper : Str → Option (Str × Nat) := fun s =>
  match s with
  | c :: t =>
    if c = '.' ∨ c = '!' ∨ c = '?' then
      let k := countWhile jsSpace t
      match t.drop k with
      | u :: _ => if jsUpper u then some ([c, ' ', u], k + 1) else none
      | [] => none
    else none
  | [] => none

/-- Step of `(\d)\s+(\d) → $1$2` (spaced digits). -/
def stepDigitGap : Str → Option (Str × Nat) := fun s =>
  match s with
  | c :: t =>
    if jsDigit c then
      let k := countWhile jsSpace t
      if k > 0 then
        match t.drop k with
        | d :: _ => if jsDigit d then some ([c, d], k + 1) else none
        | [] => none
      else none
    else none
  | [] => none

/-- Step of `(https?:\/\/)\s+ → $1` (broken URLs). -/
def stepUrl : Str → Option (Str × Nat) := fun s =>
  if pfx ("http://".data) s then
    let rest := s.drop 7
    let k := countWhile jsSpace rest
    if k > 0 then some ("http://".data, 7 + k - 1) else none
  else if pfx ("https://".data) s then
    let rest := s.drop 8
    let k := countWhile jsSpace rest
    if k > 0 then some ("https://".data, 8 + k - 1) else none
  else none

/-- Step of `(\w+@)\s+(\w+\.\w+) → $1$2` (broken e-mail addresses). -/
def stepEmail : Str → Option (Str × Nat) := fun s =>
  let w1 := countWhile jsWord s
  if w1 > 0 then
    match s.drop w1 with
    | '@' :: s2 =>
      let k := countWhile jsSpace s2
      if k > 0 then
        let s3 := s2.drop k
        let a := countWhile jsWord s3
        if a > 0 then
          match s3.drop a with
          | '.' :: s5 =>
            let b := countWhile jsWord s5
            if b > 0 then
              some (s.take w1 ++ ['@'] ++ s3.take a ++ ['.'] ++ s5.take b,
                w1 + 1 + k + a + 1 + b - 1)
            else none
          | _ => none
        else none
      else none
    | _ => none
  else none

/-- Stage 2 of the pipeline, `correctOCRErrors`: the `commonOCRErrors` map
applied entry by entry, then the seven `wordFixes` replacements in order. -/
def correctOCRErrors (s : Str) : Str :=
  let afterMap := commonOCRErrors.foldl (fun t kv => replaceAllLit kv.1 kv.2 t) s
  let f1 := scanRepl stepHyphenBreak afterMap
  let f2 := scanRepl stepWordGap f1
  let f3 := scanRepl stepSpacePunct f2
  let f4 := scanRepl stepPunctSpaceUpper f3
  let f5 := scanRepl stepDigitGap f4
  let f6 := scanRepl stepUrl f5
  scanRepl stepEmail f6

/-- The character class `[  -   　]` of
`normalizeWhitespace`. -/
def nwsUnicodeSpace (c : Char) : Bool :=
  (c.val = 0xa0 ∨ (0x2000 ≤ c.val ∧ c.val ≤ 0x200a) ∨ c.val = 0x202f ∨
    c.val = 0x205f ∨ c.val = 0x3000)

/-- Step of `[ \t]+ → ' '`. -/
def stepSpaceTabRun : Str → Option (Str × Nat) := fun s =>
  let k := countWhile (fun c => c = ' ' ∨ c = '\t') s
  if k > 0 then some ([' '], k - 1) else none

/-- Step of `\n{3,} → '\n\n'`. -/
def stepNewlineRun : Str → Option (Str × Nat) := fun s =>
  let k := countWhile (fun c => c = '\n') s
  if k ≥ 3 then some (['\n', '\n'], k - 1) else none

/-- Step of the multiline `[ \t]+$ → ''` (trailing whitespace of each line):
a space/tab run followed by a line terminator or the end of the string. -/
def stepTrailingWs : Str → Option (Str × Nat) := fun s =>
  let k := countWhile (fun c => c = ' ' ∨ c = '\t') s
  if k > 0 then
    match s.drop k with
    | [] => some ([], k - 1)
    | c :: _ =>
      if c = '\n' ∨ c = '\r' ∨ c.val = 0x2028 ∨ c.val = 0x2029 then
        some ([], k - 1)
      else none
  else none

/-- Stage 3 of the pipeline, `normalizeWhitespace`. -/
def normalizeWhitespace (s : Str) : Str :=
  let n1 := s.map (fun c => if nwsUnicodeSpace c then ' ' else c)
  let n2 := scanRepl stepSpaceTabRun n1
  let n3 := replaceAllLit ("\r\n".data) ("\n".data) n2
  let n4 := n3.map (fun c => if c = '\r' then '\n' else c)
  let n5 := scanRepl stepNewlineRun n4
  let n6 := scanRepl stepTrailingWs n5
  jsTrim n6

/-- The (double-encoded) dash class of `standardizeFormatting` and its
replacement string, exactly as in the source file. -/
def dashClass (c : Char) : Bool :=
  (c.val = 0x432 ∨ c.val = 0x402 ∨ c.val = 0x2019 ∨ c.val = 0x201c ∨ c.val = 0x201d)

def dashRepl : Str := "вЂ“".data

/-- The (double-encoded) bullet class of `standardizeFormatting` and its
replacement string. -/
def bulletClass (c : Char) : Bool :=
  (c.val = 0x432 ∨ c.val = 0x402 ∨ c.val = 0x45e ∨ c.val = 0x2013 ∨
    c.val = 0x404 ∨ c.val = 0xab ∨ c.val = 0x408 ∨ c.val = 0x403 ∨ c.val = 0x453)

def bulletRepl : Str := "вЂў".data

/-- Step of `\.{3,} → …` (the double-encoded ellipsis). -/
def stepDots3 : Str → Option (Str × Nat) := fun s =>
  let k := countWhile (fun c => c = '.') s
  if k ≥ 3 then some ("вЂ¦".data, k - 1) else none

/-- Step of `([.!?])([A-Z]) → $1 $2`. -/
def stepPunctUpper : Str → Option (Str × Nat) := fun s =>
  match s with
  | c :: u :: _ =>
    if (c = '.' ∨ c = '!' ∨ c = '?') ∧ jsUpper u then some ([c, ' ', u], 1) else none
  | _ => none

/-- Step of `[.]{4,} → '...'`. -/
def stepDots4 : Str → Option (Str × Nat) := fun s =>
  let k := countWhile (fun c => c = '.') s
  if k ≥ 4 then some ("...".data, k - 1) else none

/-- Step of `[!]{2,} → '!'`. -/
def stepBangs : Str → Option (Str × Nat) := fun s =>
  let k := countWhile (fun c => c = '!') s
  if k ≥ 2 then some (['!'], k - 1) else none

/-- Step of `[?]{2,} → '?'`. -/
def stepQuestions : Str → Option (Str × Nat) := fun s =>
  let k := countWhile (fun c => c = '?') s
  if k ≥ 2 then some (['?'], k - 1) else none

/-- Stage 4 of the pipeline, `standardizeFormatting`.  In this source file the
quotation-mark classes contain only the straight ASCII quote characters, so
those two replacements are per-character identities, embedded as such. -/
def standardizeFormatting (s : Str) : Str :=
  let q1 := s.map (fun c => if c = '"' then '"' else c)
  let q2 := q1.map (fun c => if c.val = 0x27 then Char.ofNat 0x27 else c)
  let d := q2.flatMap (fun c => if dashClass c then dashRepl else [c])
  let e := scanRepl stepDots3 d
  let p1 := scanRepl stepSpacePunct e
  let p2 := scanRepl stepPunctUpper p1
  let b := p2.flatMap (fun c => if bulletClass c then bulletRepl else [c])
  let x1 := scanRepl stepDots4 b
  let x2 := scanRepl stepBangs x1
  scanRepl stepQuestions x2

/-- One pass of `expandAcronyms` for a single acronym: every word-boundary
occurrence is replaced, the first by `expansion (ACR)` and later ones by the
expansion alone. -/
def expandAcrGo (acr exp : Str) : Bool → Option Char → Nat → Str → Str
  | _, _, _, [] => []
  | first, _, Nat.succ skip, c :: t => expandAcrGo acr exp first (some c) skip t
  | first, prev, 0, c :: t =>
    if pfx acr (c :: t) ∧ wordAt prev ≠ wordAt (some c) ∧
        wordAt ((c :: t).get? (acr.length - 1)) ≠ wordAt ((c :: t).get? acr.length) then
      let repl := if first then exp ++ " (".data ++ acr ++ ")".data else exp
      repl ++ expandAcrGo acr exp false (some c) (acr.length - 1) t
    else
      c :: expandAcrGo acr exp first (some c) 0 t

/-- Stage 5 of the pipeline, `expandAcronyms`. -/
def expandAcronyms (s : Str) : Str :=
  academicAcronyms.foldl (fun t kv => expandAcrGo kv.1 kv.2 true none 0 t) s

/-- The heading test `isHeading` of `extractDocumentStructure`. -/
def isHeading (line : Str) : Bool :=
  if line.length = 0 ∨ line.length > 200 then false
  else
    let l := jsTrim line
    let d1 := countWhile jsDigit l
    -- ^\d+\.\s+.+
    let h1 := d1 > 0 &&
      (match l.drop d1 with
       | '.' :: r =>
         let w := countWhile jsSpace r
         w > 0 && (r.drop w).length > 0
       | _ => false)
    -- ^\d+\.\d+\s+.+
    let h2 := d1 > 0 &&
      (match l.drop d1 with
       | '.' :: r =>
         let d2 := countWhile jsDigit r
         d2 > 0 &&
           (let w := countWhile jsSpace (r.drop d2)
            w > 0 && ((r.drop d2).drop w).length > 0)
       | _ => false)
    -- ^[A-Z\s]{5,50}$
    let h3 := 5 ≤ l.length && l.length ≤ 50 && l.all (fun c => jsUpper c || jsSpace c)
    -- ^[A-Z][a-z].*[^.!?]$
    let h4 :=
      match l with
      | a :: b :: rest =>
        jsUpper a && jsLower b && rest.length > 0 &&
          (match l.getLast? with
           | some z => ¬(z = '.' ∨ z = '!' ∨ z = '?')
           | none => false)
      | _ => false
    -- ^(Chapter|Section|Part)\s+\d+  (case-insensitive)
    let ll := lowerStr l
    let h5 := (["chapter", "section", "part"].map String.data).any (fun pre =>
      pfx pre ll &&
        (let r := ll.drop pre.length
         let w := countWhile jsSpace r
         w > 0 && countWhile jsDigit (r.drop w) > 0))
    -- ^(Abstract|Introduction|...)  (case-insensitive prefix)
    let h6 := (["abstract", "introduction", "methodology", "results", "discussion",
      "conclusion", "references", "appendix"].map String.data).any (fun pre => pfx pre ll)
    h1 || h2 || h3 || h4 || h5 || h6

/-- `cleanHeading`: strip a leading `\d+\.?\s*`, then a leading
`(Chapter|Section|Part)\s+\d+:?\s*` (case-insensitively), then trim. -/
def cleanHeading (heading : Str) : Str :=
  let s1 :=
    let d := countWhile jsDigit heading
    if d > 0 then
      let r := heading.drop d
      let r2 := match r with
        | '.' :: r' => r'
        | _ => r
      r2.drop (countWhile jsSpace r2)
    else heading
  let s2 :=
    let ls := lowerStr s1
    match (["chapter", "section", "part"].map String.data).find? (fun pre =>
      pfx pre ls &&
        (let r := ls.drop pre.length
         let w := countWhile jsSpace r
         w > 0 && countWhile jsDigit (r.drop w) > 0)) with
    | some pre =>
      let r := s1.drop pre.length
      let w := countWhile jsSpace r
      let r2 := r.drop w
      let d := countWhile jsDigit r2
      let r3 := r2.drop d
      let r4 := match r3 with
        | ':' :: r' => r'
        | _ => r3
      r4.drop (countWhile jsSpace r4)
    | none => s1
  jsTrim s2

/-- Extracted section of `extractDocumentStructure`. -/
structure TPSection where
  title : Str
  content : Str
  startIndex : Nat
  endIndex : Nat
deriving DecidableEq, Repr

/-- Splitting on a literal separator character, the semantics of
`String.prototype.split("\n")` (no run merging, empty pieces kept). -/
def splitChar (sep : Char) : Str → List Str
  | [] => [[]]
  | c :: t =>
    if c = sep then [] :: splitChar sep t
    else
      match splitChar sep t with
      | [] => [[c]]
      | piece :: rest => (c :: piece) :: rest

/-- Stage 6 of the pipeline, `extractDocumentStructure`. -/
def extractDocumentStructure (text : Str) : List TPSection :=
  let lines := splitChar '\n' text
  let step := fun (st : List TPSection × Option (Str × Str × Nat) × Nat) (rawLine : Str) =>
    let (sections, currentSection, lineIndex) := st
    let line := jsTrim rawLine
    let lineIndex := lineIndex + rawLine.length + 1
    if isHeading line ∧ line.length > 0 then
      let sections := match currentSection with
        | some (t, c, si) => sections ++ [⟨t, c, si, lineIndex - rawLine.length - 1⟩]
        | none => sections
      (sections, some (cleanHeading line, [], lineIndex - rawLine.length - 1), lineIndex)
    else if currentSection.isSome ∧ line.length > 0 then
      match currentSection with
      | some (t, c, si) =>
        (sections, some (t, (if c.length > 0 then c ++ "\n".data ++ line else line), si), lineIndex)
      | none => (sections, none, lineIndex)
    else
      (sections, currentSection, lineIndex)
  let (sections, currentSection, _) := lines.foldl step ([], none, 0)
  match currentSection with
  | some (t, c, si) => sections ++ [⟨t, c, si, text.length⟩]
  | none => sections

/-- The artifact class of the TextProcessor quality score: the complement of
`[\w\s.,!?;:'"()\-–—]` where the two dash literals are double-encoded into the
three characters в (U+0432), Ђ (U+0402) and the curly quotes U+201C / U+201D. -/
def tpArtifactChar (c : Char) : Bool :=
  ¬(jsWord c ∨ jsSpace c ∨ c = '.' ∨ c = ',' ∨ c = '!' ∨ c = '?' ∨ c = ';' ∨
    c = ':' ∨ c.val = 0x27 ∨ c = '"' ∨ c = '(' ∨ c = ')' ∨ c = '-' ∨
    c.val = 0x432 ∨ c.val = 0x402 ∨ c.val = 0x201c ∨ c.val = 0x201d)

/-- Match counter for a regex without replacement: at each position the step
returns the length of the match starting there, if any. -/
def scanCountGo (step : Str → Option Nat) : Nat → Str → Nat
  | _, [] => 0
  | Nat.succ skip, _ :: t => scanCountGo step skip t
  | 0, c :: t =>
    match step (c :: t) with
    | some k => 1 + scanCountGo step k t
    | none => scanCountGo step 0 t

def scanCount (step : Str → Option Nat) (s : Str) : Nat := scanCountGo step 0 s

/-- Step of the spacing-anomaly counter `\s{3,}|[a-z][A-Z]|\w[.!?][a-z]`
(alternatives tried left to right). -/
def stepSpacingIssue : Str → Option Nat := fun s =>
  let k := countWhile jsSpace s
  if k ≥ 3 then some (k - 1)
  else
    match s with
    | a :: b :: rest =>
      if jsLower a ∧ jsUpper b then some 1
      else
        match rest with
        | c3 :: _ =>
          if jsWord a ∧ (b = '.' ∨ b = '!' ∨ b = '?') ∧ jsLower c3 then some 2
          else none
        | [] => none
    | _ => none

/-- The TextProcessor quality score `calculateTextQuality(text, originalLength)`. -/
def tpCalculateTextQuality (text : Str) (originalLength : Nat) : ℚ :=
  let score : ℚ := 1/2
  let lengthRatio : ℚ := (text.length : ℚ) / (max originalLength 1 : ℚ)
  let score := if lengthRatio > 9/10 then score + 1/10
    else if lengthRatio > 8/10 then score + 1/20 else score
  let uniqueChars := (lowerStr text).dedup.length
  let score := if uniqueChars > 20 then score + 1/10 else score
  let wordCount := ((jsSplit jsSpace text).filter (fun w => w.length > 0)).length
  let score := if wordCount > 100 then score + 1/10 else score
  let score := if wordCount > 500 then score + 1/10 else score
  let sentences := (jsSplit (fun c => c = '.' ∨ c = '!' ∨ c = '?') text).filter
    (fun s => (jsTrim s).length > 10)
  let score := if sentences.length > 5 then score + 1/20 else score
  let score := if sentences.length > 20 then score + 1/20 else score
  let artifactCount := (text.filter tpArtifactChar).length
  let artifactRatio : ℚ := (artifactCount : ℚ) / (max text.length 1 : ℚ)
  let score := if artifactRatio < 1/100 then score + 1/10
    else if artifactRatio > 1/20 then score - 1/10 else score
  let spacingIssues := scanCount stepSpacingIssue text
  let score := if (spacingIssues : ℚ) < (text.length : ℚ) * (1/1000) then score + 1/10
    else score
  max 0 (min 1 score)

/-- The `TextProcessingOptions` record, with the defaults of `processText`
already merged in (callers of the model pass every field). -/
structure TPOptions where
  removeOCRErrors : Bool := true
  standardizeFormatting : Bool := true
  fixEncoding : Bool := true
  normalizeWhitespace : Bool := true
  preserveStructure : Bool := true
  expandAcronyms : Bool := false
deriving DecidableEq, Repr

/-- Runtime environment of one `processText` call.  JavaScript can raise an
exception inside any pipeline stage at runtime (the reason for the
`try`/`catch` in the source); `failsAt k` records whether stage `k` throws in
this call.  The all-`false` environment is the normal run. -/
structure TPEnv where
  failsAt : Nat → Bool

def tpEnvOK : TPEnv := ⟨fun _ => false⟩

/-- Result record of `processText`.  `sections` is `[]` both for the error
fallback (which returns `sections: []`) and when structure extraction is
switched off (where the source leaves the field undefined); no claim
distinguishes the two. -/
structure ProcessedTextResult where
  cleanedText : Str
  originalLength : Nat
  processedLength : Nat
  improvementsApplied : List Str
  qualityScore : ℚ
  sections : List TPSection
deriving DecidableEq, Repr

/-- One pipeline stage under the environment: either the stage's value or the
exception it throws. -/
def stageRun {α : Type} (env : TPEnv) (k : Nat) (v : α) : Except Unit α :=
  if env.failsAt k then Except.error () else Except.ok v

/-- The body of the `try` block of `TextProcessor.processText`: the six
optional stages in their fixed order, the improvement notes with their
source conditions, and the quality score. -/
def processTextBody (opts : TPOptions) (env : TPEnv) (text : Str) :
    Except Unit ProcessedTextResult :=
  let originalLength := text.length
  (if opts.fixEncoding then
      (stageRun env 1 (fixEncodingIssues text)).map (fun t =>
        (t, if t.length ≠ text.length then ["Fixed text encoding issues".data] else []))
    else Except.ok (text, [])).bind fun (t1, i1) =>
  (if opts.removeOCRErrors then
      (stageRun env 2 (correctOCRErrors t1)).map (fun t =>
        (t, if t ≠ t1 then i1 ++ ["Corrected OCR recognition errors".data] else i1))
    else Except.ok (t1, i1)).bind fun (t2, i2) =>
  (if opts.normalizeWhitespace then
      (stageRun env 3 (normalizeWhitespace t2)).map (fun t =>
        (t, if t ≠ t2 then i2 ++ ["Normalized whitespace and line breaks".data] else i2))
    else Except.ok (t2, i2)).bind fun (t3, i3) =>
  (if opts.standardizeFormatting then
      (stageRun env 4 (standardizeFormatting t3)).map (fun t =>
        (t, if t ≠ t3 then i3 ++ ["Standardized text formatting".data] else i3))
    else Except.ok (t3, i3)).bind fun (t4, i4) =>
  (if opts.expandAcronyms then
      (stageRun env 5 (expandAcronyms t4)).map (fun t =>
        (t, if t ≠ t4 then i4 ++ ["Expanded common acronyms".data] else i4))
    else Except.ok (t4, i4)).bind fun (t5, i5) =>
  (if opts.preserveStructure then
      (stageRun env 6 (extractDocumentStructure t5)).map (fun secs =>
        (secs, if secs.length > 0 then i5 ++ ["Identified document structure".data] else i5))
    else Except.ok ([], i5)).bind fun (sections, i6) =>
  (stageRun env 7 (tpCalculateTextQuality t5 originalLength)).map fun quality =>
  { cleanedText := t5
    originalLength := originalLength
    processedLength := t5.length
    improvementsApplied := i6
    qualityScore := quality
    sections := sections }

/-- `TextProcessor.processText`: the `try` body with its `catch` fallback,
which returns the original text, a quality score of `0.5` and a single error
note.  The function is total — answer generation never propagates an
exception out of `processText`. -/
def processText (text : Str) (opts : TPOptions) (env : TPEnv) : ProcessedTextResult :=
  match processTextBody opts env text with
  | Except.ok r => r
  | Except.error _ =>
    { cleanedText := text
      originalLength := text.length
      processedLength := text.length
      improvementsApplied := ["Error occurred during processing".data]
      qualityScore := 1/2
      sections := [] }

/-- `TextProcessor.quickClean`. -/
def quickClean (text : Str) (env : TPEnv) : Str :=
  (processText text
    { removeOCRErrors := true, standardizeFormatting := true, fixEncoding := true,
      normalizeWhitespace := true, preserveStructure := false, expandAcronyms := false }
    env).cleanedText

/-- Result of `TextProcessor.prepareForQA`. -/
structure PrepareForQAResult where
  cleanedText : Str
  sections : List TPSection
  improvements : List Str
deriving DecidableEq, Repr

/-- `TextProcessor.prepareForQA`. -/
def prepareForQA (text : Str) (env : TPEnv) : PrepareForQAResult :=
  let r := processText text
    { removeOCRErrors := true, standardizeFormatting := true, fixEncoding := true,
      normalizeWhitespace := true, preserveStructure := true, expandAcronyms := false }
    env
  { cleanedText := r.cleanedText, sections := r.sections, improvements := r.improvementsApplied }

/-! ## Chunker and document model (src/unnamed/part_010, `pdfProcessor`) -/

/-- The sentence-terminator class `[.!?]` of the chunker. -/
def isTerm (c : Char) : Bool := (c = '.' ∨ c = '!' ∨ c = '?')

/-- An extracted page, `{ page, text }`. -/
structure ExtractedPage where
  page : Nat
  text : Str
deriving DecidableEq, Repr

/-- A text chunk, `{ content, page, chunkIndex, keywords }`. -/
structure TextChunk where
  content : Str
  page : Nat
  chunkIndex : Nat
  keywords : List Str
deriving DecidableEq, Repr

/-- `PDFProcessor.extractKeywords`: lower-cased whitespace tokens of length
greater than 3, pure numbers removed, capped at 20. -/
def extractKeywords (text : Str) : List Str :=
  ((((jsSplit jsSpace (lowerStr text)).filter (fun w => w.length > 3)).filter
    (fun w => ¬(w ≠ [] ∧ w.all jsDigit))).take 20)

/-- The sentence loop of `createTextChunks` for one page: `cur` is the running
buffer `currentChunk`, `acc` the chunks already emitted, `idx` the global
`chunkIndex`. -/
def chunkGo (maxSize pageNo : Nat) : List Str → Str → List TextChunk → Nat →
    List TextChunk × Nat
  | [], cur, acc, idx =>
    if (jsTrim cur).length > 0 then
      (acc ++ [⟨jsTrim cur, pageNo, idx, extractKeywords cur⟩], idx + 1)
    else (acc, idx)
  | s :: rest, cur, acc, idx =>
    let ts := jsTrim s
    if ts.length = 0 then chunkGo maxSize pageNo rest cur acc idx
    else if cur.length + ts.length > maxSize ∧ cur.length > 0 then
      chunkGo maxSize pageNo rest (ts ++ ". ".data)
        (acc ++ [⟨jsTrim cur, pageNo, idx, extractKeywords cur⟩]) (idx + 1)
    else
      chunkGo maxSize pageNo rest (cur ++ ts ++ ". ".data) acc idx

/-- `PDFProcessor.createTextChunks(pages, maxChunkSize = 500)`. -/
def createTextChunks (pages : List ExtractedPage) (maxChunkSize : Nat := 500) :
    List TextChunk :=
  (pages.foldl (fun (st : List TextChunk × Nat) page =>
    if page.text.length = 0 then st
    else
      let sentences := (jsSplit isTerm page.text).filter (fun s => (jsTrim s).length > 0)
      chunkGo maxChunkSize page.page sentences [] st.1 st.2) ([], 0)).1

/-- Document lifecycle status. -/
inductive DocStatus where
  | processing
  | ready
  | error
deriving DecidableEq, Repr

/-- The `ProcessedDocument` record of the PDF processor (the upload timestamp
and random id do not influence any claimed behaviour and are left out of the
scoring-relevant fields; `name` participates in title scoring). -/
structure ProcessedDocument where
  id : Str
  name : Str
  size : Nat
  status : DocStatus
  pageCount : Nat
  pages : List ExtractedPage
  chunks : List TextChunk
  fullText : Str
  cleanedFullText : Option Str := none
  processingQuality : Option ℚ := none
  textImprovements : Option (List Str) := none
deriving DecidableEq, Repr

/-! ## Enhanced question answering (src/unnamed/part_009, `EnhancedQuestionAnswering`) -/

/-- A scored chunk, the ephemeral `{ chunk, score, document }` triple. -/
structure SearchResult where
  chunk : TextChunk
  score : ℚ
  document : ProcessedDocument
deriving DecidableEq, Repr

/-- A formatted source citation. -/
structure SourceRef where
  document : Str
  page : Nat
  excerpt : Str
  relevanceScore : ℚ
deriving DecidableEq, Repr

/-- The `EnhancedAnswerResult` record. -/
structure EnhancedAnswerResult where
  answer : Str
  confidence : ℚ
  sources : List SourceRef
  suggestedFollowUps : List Str
deriving DecidableEq, Repr

/-- Stable insertion into a descending-by-score list: the model of
`Array.prototype.sort((a, b) => b.score - a.score)` (JavaScript sort is
stable, so ties keep their original order). -/
def insertDescBy {α : Type} (score : α → ℚ) (x : α) : List α → List α
  | [] => [x]
  | y :: ys => if score x ≤ score y then y :: insertDescBy score x ys else x :: y :: ys

def sortDescBy {α : Type} (score : α → ℚ) (l : List α) : List α :=
  l.foldl (fun acc x => insertDescBy score x acc) []

/-- The stop-word set of `extractQueryTerms`. -/
def eqaStopWords : List Str :=
  (["the", "a", "an", "and", "or", "but", "in", "on", "at", "to", "for", "of",
    "with", "by", "from", "about", "what", "how", "when", "where", "why", "who",
    "which", "that", "this", "is", "are", "was", "were", "be", "been", "being",
    "have", "has", "had", "do", "does", "did", "will", "would", "could",
    "should", "may", "might", "can", "shall"].map String.data)

/-- `EnhancedQuestionAnswering.extractQueryTerms`: lower-case, replace
non-word non-space characters by spaces, split on whitespace, drop stop words
and words of length at most 2, cap at 10 terms; a single placeholder term
`query` when nothing survives. -/
def extractQueryTerms (query : Str) : List Str :=
  let cleaned := (lowerStr query).map (fun c => if ¬(jsWord c ∨ jsSpace c) then ' ' else c)
  let terms := ((jsSplit jsSpace cleaned).filter
    (fun w => w ≠ [] ∧ w.length > 2 ∧ ¬(w ∈ eqaStopWords))).take 10
  if terms = [] then ["query".data] else terms

/-- The contextual query/content pattern table of
`EnhancedQuestionAnswering.getContextualScore`, each row being the
alternatives of the query regex, the alternatives of the content regex, and
the weight. -/
def eqaContextPatterns : List (List Str × List Str × ℚ) :=
  [((["what is", "define", "definition"].map String.data),
    (["is a", "is the", "refers to", "defined as", "means"].map String.data), 4),
   ((["how does", "how to", "process", "method"].map String.data),
    (["process", "method", "approach", "technique", "procedure", "steps"].map String.data), 4),
   ((["why", "reason", "because"].map String.data),
    (["because", "reason", "due to", "since", "therefore", "purpose"].map String.data), 4),
   ((["types", "kinds", "categories"].map String.data),
    (["types", "kinds", "categories", "include", "main", "primary"].map String.data), 4),
   ((["example", "application", "use"].map String.data),
    (["example", "application", "used", "practice", "industry", "case"].map String.data), 3),
   ((["benefit", "advantage", "pros"].map String.data),
    (["benefit", "advantage", "strength", "positive", "improved"].map String.data), 3),
   ((["limitation", "disadvantage", "problem"].map String.data),
    (["limitation", "disadvantage", "problem", "issue", "challenge"].map String.data), 3)]

/-- `EnhancedQuestionAnswering.getContextualScore` (both arguments are
already lower case at the call sites, so the `i` flags reduce to plain
substring tests of the alternatives). -/
def eqaContextualScore (query content : Str) : ℚ :=
  eqaContextPatterns.foldl (fun score row =>
    if row.1.any (fun alt => subStr alt query) ∧
        (row.2.1.any (fun alt => subStr alt content)) then
      score + row.2.2
    else score) 0

/-- `EnhancedQuestionAnswering.calculateSemanticScore`. -/
def calculateSemanticScore (queryWords : List Str) (chunk : TextChunk)
    (document : ProcessedDocument) : ℚ :=
  let content := lowerStr chunk.content
  let queryPhrase := List.intercalate (" ".data) queryWords
  let phraseScore : ℚ := if subStr queryPhrase content then 10 else 0
  let wordScore : ℚ := (queryWords.enum).foldl (fun acc iw =>
    if subStr iw.2 content then
      let positionWeight : ℚ := 1 + ((queryWords.length - iw.1 : Nat) : ℚ) * (1/10)
      acc + 3 * positionWeight +
        (if wbTest iw.2 content then 2 * positionWeight else 0)
    else acc) 0
  let ctxScore := eqaContextualScore (List.intercalate (" ".data) queryWords) content
  let contentWords := (jsSplit jsSpace content).length
  let matchingWords := (queryWords.filter (fun w => subStr w content)).length
  let density : ℚ := (matchingWords : ℚ) / (max contentWords 1 : ℚ)
  let densityScore := density * 5
  let documentName := lowerStr document.name
  let titleScore : ℚ := queryWords.foldl (fun acc w =>
    if subStr w documentName then acc + 1 else acc) 0
  phraseScore + wordScore + ctxScore + densityScore + titleScore

/-- `EnhancedQuestionAnswering.performSemanticSearch`: score every chunk of
every ready document, keep strictly positive scores, sort descending
(stable) and keep the top 8. -/
def performSemanticSearch (query : Str) (documents : List ProcessedDocument) :
    List SearchResult :=
  let queryLower := lowerStr query
  let queryWords := extractQueryTerms queryLower
  let results := documents.foldl (fun acc doc =>
    if doc.status = DocStatus.ready then
      acc ++ (doc.chunks.filterMap (fun chunk =>
        let score := calculateSemanticScore queryWords chunk doc
        if score > 0 then some ⟨chunk, score, doc⟩ else none))
    else acc) []
  (sortDescBy (fun r => r.score) results).take 8

/-- `generateSummaryAnswer`. -/
def generateSummaryAnswer (results : List SearchResult) : Str :=
  let keyPoints := (results.take 3).map (fun result =>
    let sentences := jsSplit isTerm result.chunk.content
    match sentences.find? (fun s => (jsTrim s).length > 30) with
    | some s => jsTrim s
    | none => result.chunk.content.take 100)
  let header := "Based on the document content, here's a summary:\n\n".data
  (keyPoints.enum).foldl (fun answer ip =>
    answer ++ natToChars (ip.1 + 1) ++ ". ".data ++ ip.2 ++ "\n".data) header

/-- `generateComparisonAnswer`. -/
def generateComparisonAnswer (results : List SearchResult) : Str :=
  match results with
  | r0 :: r1 :: _ =>
    "From the documents:\n\n**First perspective:** ".data ++ r0.chunk.content ++
      "\n\n**Another perspective:** ".data ++ r1.chunk.content
  | r0 :: _ => "According to the document: ".data ++ r0.chunk.content
  | [] => "According to the document: ".data

/-- Characters excluded by the list-item capture class `[^•\*\n]`. -/
def listCaptureStop (c : Char) : Bool := (c = '•' ∨ c = '*' ∨ c = '\n')

/-- Matcher for the list-item regex `(?:•|\*|\d+\.|-)([^•\*\n]+)` used by
`generateListAnswer` — collects the full match strings, in order. -/
def listMatchesGo : Nat → Str → List Str
  | _, [] => []
  | Nat.succ skip, _ :: t => listMatchesGo skip t
  | 0, c :: t =>
    let attempt : Option (Str × Nat) :=
      if c = '•' ∨ c = '*' ∨ c = '-' then some ([c], 1)
      else
        let d := countWhile jsDigit (c :: t)
        if d > 0 then
          match (c :: t).drop d with
          | '.' :: _ => some ((c :: t).take (d + 1), d + 1)
          | _ => none
        else none
    match attempt with
    | some (pre, preLen) =>
      let capture := ((c :: t).drop preLen).takeWhile (fun ch => ¬listCaptureStop ch)
      if capture.length > 0 then
        (pre ++ capture) :: listMatchesGo (preLen + capture.length - 1) t
      else listMatchesGo 0 t
    | none => listMatchesGo 0 t

def listMatches (s : Str) : List Str := listMatchesGo 0 s

/-- The item clean-up `replace(/^[•\*\d+\.-]\s*/, '')` of `generateListAnswer`:
one leading character of the class, then a whitespace run, removed once. -/
def stripListPrefix (item : Str) : Str :=
  match item with
  | c :: t =>
    if c = '•' ∨ c = '*' ∨ jsDigit c ∨ c = '+' ∨ c = '.' ∨ c = '-' then
      t.drop (countWhile jsSpace t)
    else item
  | [] => []

/-- `generateListAnswer`. -/
def generateListAnswer (results : List SearchResult) : Str :=
  match results with
  | [] => "The document explains: ".data
  | r0 :: _ =>
    let content := r0.chunk.content
    let ms := listMatches content
    if ms.length > 1 then
      ms.foldl (fun answer item =>
        answer ++ "• ".data ++ jsTrim (stripListPrefix item) ++ "\n".data)
        ("According to the document:\n\n".data)
    else "The document explains: ".data ++ content

/-- `generateContextualAnswer`. -/
def generateContextualAnswer (query : Str) (results : List SearchResult) : Str :=
  match results with
  | [] => []
  | mainResult :: rest =>
    let content := mainResult.chunk.content
    let documentName := mainResult.document.name
    let sentences := (jsSplit isTerm content).filter (fun s => (jsTrim s).length > 20)
    let queryWords := extractQueryTerms (lowerStr query)
    let init : Str := match sentences with
      | s :: _ => s
      | [] => content.take 200
    let best := (sentences.foldl (fun (st : Str × Nat) sentence =>
      let relevance := (queryWords.filter (fun w => subStr w (lowerStr sentence))).length
      if relevance > st.2 then (sentence, relevance) else st) (init, 0)).1
    let answer := "According to **".data ++ documentName ++ "**:\n\n".data ++
      jsTrim best ++ ".".data
    match rest with
    | r1 :: _ =>
      if r1.score > mainResult.score * (7/10) then
        match jsSplit isTerm r1.chunk.content with
        | s :: _ =>
          if s ≠ [] ∧ (jsTrim s).length > 20 then
            answer ++ "\n\nAdditionally: ".data ++ jsTrim s ++ ".".data
          else answer
        | [] => answer
      else answer
    | [] => answer

/-- `generateIntelligentAnswer`: the priority-ordered template dispatch. -/
def generateIntelligentAnswer (query : Str) (results : List SearchResult) : Str :=
  match results with
  | [] => "No relevant information found.".data
  | _ =>
    let queryLower := lowerStr query
    let topResults := results.take 3
    if subStr ("summary".data) queryLower ∨ subStr ("overview".data) queryLower then
      generateSummaryAnswer topResults
    else if subStr ("compare".data) queryLower ∨ subStr ("difference".data) queryLower then
      generateComparisonAnswer topResults
    else if subStr ("list".data) queryLower ∨ subStr ("types".data) queryLower ∨
        subStr ("kinds".data) queryLower then
      generateListAnswer topResults
    else
      generateContextualAnswer query topResults

/-- `calculateConfidence`. -/
def calculateConfidence (query : Str) (results : List SearchResult) : ℚ :=
  match results with
  | [] => 0
  | top :: _ =>
    let topScore := top.score
    let queryWords := extractQueryTerms (lowerStr query)
    let confidence := min (topScore / 10) 1
    let confidence := match results with
      | _ :: second :: _ =>
        if second.score > topScore * (8/10) then confidence + 1/10 else confidence
      | _ => confidence
    let topContent := lowerStr top.chunk.content
    let coverage : ℚ :=
      ((queryWords.filter (fun w => subStr w topContent)).length : ℚ) /
        (queryWords.length : ℚ)
    let confidence := confidence + coverage * (2/10)
    min confidence 1

/-- `Math.round`. -/
def jsRound (q : ℚ) : ℤ := ⌊q + 1/2⌋

/-- `formatSources`: top three results with 150-character excerpts. -/
def formatSources (results : List SearchResult) : List SourceRef :=
  (results.take 3).map (fun result =>
    { document := result.document.name
      page := result.chunk.page
      excerpt :=
        if result.chunk.content.length > 150 then
          result.chunk.content.take 150 ++ "...".data
        else result.chunk.content
      relevanceScore := (jsRound (result.score * 10) : ℚ) / 10 })

/-- `extractMainTopic`. -/
def extractMainTopic (query : Str) : Str :=
  let words := extractQueryTerms query
  let joined := List.intercalate (" ".data) (words.reverse.take 2).reverse
  if joined = [] then "this topic".data else joined

/-- Order-preserving de-duplication, the model of `[...new Set(list)]`. -/
def dedupKeepFirstGo (seen : List Str) : List Str → List Str
  | [] => []
  | x :: xs =>
    if x ∈ seen then dedupKeepFirstGo seen xs
    else x :: dedupKeepFirstGo (seen ++ [x]) xs

def dedupKeepFirst (l : List Str) : List Str := dedupKeepFirstGo [] l

/-- `generateContextualFollowUps`. -/
def generateContextualFollowUps (query : Str) (results : List SearchResult) :
    List Str :=
  let queryLower := lowerStr query
  let fromTop : List Str := match results with
    | [] => []
    | topResult :: _ =>
      let content := lowerStr topResult.chunk.content
      let byQuery :=
        if subStr ("what is".data) queryLower then
          ["How does ".data ++ extractMainTopic query ++ " work?".data,
           "What are the applications of ".data ++ extractMainTopic query ++ "?".data]
        else if subStr ("how".data) queryLower then
          ["What are the benefits of this approach?".data,
           "What challenges might arise?".data]
        else if subStr ("why".data) queryLower then
          ["What are the implications of this?".data,
           "How does this compare to alternatives?".data]
        else []
      let byContent :=
        (if subStr ("method".data) content ∨ subStr ("approach".data) content then
          ["What are the steps involved in this method?".data] else []) ++
        (if subStr ("result".data) content ∨ subStr ("finding".data) content then
          ["What were the key findings?".data,
           "How significant are these results?".data] else []) ++
        (if subStr ("application".data) content ∨ subStr ("use".data) content then
          ["What are some real-world examples?".data] else [])
      byQuery ++ byContent
  let followUps := fromTop ++
    ["Can you provide more details about this topic?".data,
     "What else should I know about this subject?".data]
  (dedupKeepFirst followUps).take 4

/-- `generateGenericFollowUps`. -/
def generateGenericFollowUps (_documents : List ProcessedDocument) : List Str :=
  ["What are the main topics covered in my documents?".data,
   "Can you summarize the key points?".data,
   "What type of document did I upload?".data,
   "What questions can I ask about this content?".data]

/-- `generateNoResultsAnswer`: a distinct message when no document is ready,
otherwise the fixed apologetic message with the quoted query. -/
def generateNoResultsAnswer (query : Str) (documents : List ProcessedDocument) : Str :=
  let readyDocs := documents.filter (fun doc => doc.status = DocStatus.ready)
  if readyDocs.length = 0 then
    ("I don't have any processed documents to search through yet. " ++
      "Please upload and wait for documents to be processed.").data
  else
    "I couldn't find specific information about \"".data ++ query ++
      ("\" in your uploaded documents. This might be because:\n\n" ++
       "• The content doesn't directly address this topic\n" ++
       "• Different terminology is used in the documents\n" ++
       "• The information might be in a section I haven't indexed yet\n\n" ++
       "Try rephrasing your question with different keywords, or ask me about " ++
       "the main topics covered in your documents.").data

/-- `EnhancedQuestionAnswering.generateAnswer`. -/
def eqaGenerateAnswer (query : Str) (documents : List ProcessedDocument) :
    EnhancedAnswerResult :=
  let searchResults := performSemanticSearch query documents
  match searchResults with
  | [] =>
    { answer := generateNoResultsAnswer query documents
      confidence := 0
      sources := []
      suggestedFollowUps := generateGenericFollowUps documents }
  | _ =>
    { answer := generateIntelligentAnswer query searchResults
      confidence := calculateConfidence query searchResults
      sources := formatSources searchResults
      suggestedFollowUps := generateContextualFollowUps query searchResults }

/-! ## PDFProcessor search fallback, answer entry point and processFile
(src/unnamed/part_010, src/src/utils/api.ts) -/

/-- Syntax check of the host `RegExp` constructor for the pattern
`\b<word>\b` built by `searchDocuments` from a raw query word: scans the word
for an unbalanced group or an unclosed character class, following escapes.
The model is exact for the words this development evaluates (alphanumeric
words are valid; a word with an unmatched `(` raises a `SyntaxError`). -/
def regexOkGo : Bool → Nat → Str → Bool
  | inClass, depth, [] => ¬inClass ∧ depth = 0
  | true, depth, c :: t =>
    if c = '\\' then
      match t with
      | [] => false
      | _ :: t2 => regexOkGo true depth t2
    else if c = ']' then regexOkGo false depth t
    else regexOkGo true depth t
  | false, depth, c :: t =>
    if c = '\\' then
      match t with
      | [] => true
      | _ :: t2 => regexOkGo false depth t2
    else if c = '(' then regexOkGo false (depth + 1) t
    else if c = ')' then depth > 0 && regexOkGo false (depth - 1) t
    else if c = '[' then regexOkGo true depth t
    else regexOkGo false depth t

def jsWordPatternOk (word : Str) : Bool := regexOkGo false 0 word

/-- The synonym table of `PDFProcessor.expandSearchTerms`. -/
def searchSynonyms : List (Str × List Str) :=
  [("machine".data, (["ml", "artificial", "automated"].map String.data)),
   ("learning".data, (["training", "education", "study"].map String.data)),
   ("data".data, (["information", "dataset", "statistics"].map String.data)),
   ("analysis".data, (["analytics", "examination", "evaluation"].map String.data)),
   ("research".data, (["study", "investigation", "academic"].map String.data)),
   ("method".data, (["approach", "technique", "procedure"].map String.data)),
   ("process".data, (["procedure", "steps", "workflow"].map String.data)),
   ("application".data, (["use", "usage", "implementation"].map String.data)),
   ("type".data, (["kind", "category", "classification"].map String.data)),
   ("algorithm".data, (["method", "technique", "approach"].map String.data))]

/-- `PDFProcessor.expandSearchTerms`. -/
def expandSearchTerms (queryWords : List Str) : List Str :=
  queryWords.foldl (fun acc w =>
    match searchSynonyms.find? (fun kv => kv.1 = w) with
    | some kv => acc ++ kv.2
    | none => acc) []

/-- `PDFProcessor.getContextualScore` (the simple fallback variant). -/
def pdfContextualScore (query content : Str) : ℚ :=
  let s : ℚ := 0
  let s := if (subStr ("what is".data) query ∨ subStr ("define".data) query) ∧
      (subStr ("is a".data) content ∨ subStr ("is an".data) content ∨
       subStr ("is the".data) content ∨ subStr ("definition".data) content ∨
       subStr ("refers to".data) content) then s + 3 else s
  let s := if (subStr ("how".data) query ∨ subStr ("process".data) query ∨
      subStr ("method".data) query) ∧
      (subStr ("process".data) content ∨ subStr ("method".data) content ∨
       subStr ("approach".data) content ∨ subStr ("technique".data) content ∨
       subStr ("procedure".data) content) then s + 3 else s
  let s := if (subStr ("why".data) query ∨ subStr ("reason".data) query) ∧
      (subStr ("because".data) content ∨ subStr ("reason".data) content ∨
       subStr ("due to".data) content ∨ subStr ("purpose".data) content ∨
       subStr ("since".data) content) then s + 3 else s
  let s := if (subStr ("type".data) query ∨ subStr ("kind".data) query ∨
      subStr ("category".data) query) ∧
      (subStr ("type".data) content ∨ subStr ("kind".data) content ∨
       subStr ("category".data) content ∨ subStr ("include".data) content ∨
       subStr ("main".data) content ∨ subStr ("primary".data) content ∨
       subStr ("key".data) content) then s + 3 else s
  let s := if (subStr ("application".data) query ∨ subStr ("example".data) query ∨
      subStr ("use".data) query) ∧
      (subStr ("application".data) content ∨ subStr ("used".data) content ∨
       subStr ("example".data) content ∨ subStr ("industry".data) content ∨
       subStr ("practice".data) content) then s + 3 else s
  s

/-- Score of one chunk in `PDFProcessor.searchDocuments`; the per-word loop
builds `new RegExp("\\b" + word + "\\b")` from the unescaped word whenever the
word occurs in the content, so an invalid pattern raises a `SyntaxError`,
modelled by the `Except` error. -/
def pdfChunkScoreE (queryLower : Str) (queryWords expandedTerms : List Str)
    (chunk : TextChunk) : Except Unit ℚ :=
  let content := lowerStr chunk.content
  let s1 : ℚ := if subStr queryLower content then 5 else 0
  (queryWords.foldlM (fun acc w =>
    if subStr w content then
      if jsWordPatternOk w then
        Except.ok (acc + 2 + (if wbTest w content then 1 else 0))
      else Except.error ()
    else Except.ok acc) s1).map (fun s2 =>
  let s3 := expandedTerms.foldl (fun acc term =>
    if subStr term content ∧ ¬(term ∈ queryWords) then acc + 1 else acc) s2
  let s4 := s3 + pdfContextualScore queryLower content
  let totalWords := (jsSplit jsSpace content).length
  let matched := (queryWords.filter (fun w => subStr w content)).length
  s4 + ((matched : ℚ) / (max totalWords 1 : ℚ)) * 2)

/-- `PDFProcessor.searchDocuments`: the simple fallback search over all ready
documents, keeping positive scores, sorted descending, top 6; any
`SyntaxError` from the unescaped word regexes propagates. -/
def searchDocumentsE (query : Str) (documents : List ProcessedDocument) :
    Except Unit (List SearchResult) :=
  let queryLower := lowerStr query
  let queryWords := (jsSplit jsSpace queryLower).filter (fun w => w.length > 2)
  let expandedTerms := expandSearchTerms queryWords
  (documents.foldlM (fun acc doc =>
    if doc.status = DocStatus.ready then
      doc.chunks.foldlM (fun acc2 chunk =>
        (pdfChunkScoreE queryLower queryWords expandedTerms chunk).map (fun score =>
          if score > 0 then acc2 ++ [(⟨chunk, score, doc⟩ : SearchResult)] else acc2)) acc
    else Except.ok acc) []).map (fun results =>
  (sortDescBy (fun r => r.score) results).take 6)

/-- A source citation of the chat answer. -/
structure ChatSource where
  document : Str
  page : Nat
  excerpt : Str
deriving DecidableEq, Repr

/-- The `{ answer, sources }` result of `PDFProcessor.generateAnswer`. -/
structure AnswerOut where
  answer : Str
  sources : List ChatSource
deriving DecidableEq, Repr

/-- The `try` block of `PDFProcessor.generateAnswer`: the dynamic `require`
of the enhanced module (which throws in a browser bundle — `requireOk` records
whether the host resolves it), the no-documents check, the enhanced answer and
its confidence/follow-up annotations. -/
def tryEnhancedAnswer (query : Str) (documents : List ProcessedDocument)
    (requireOk : Bool) : Except Unit AnswerOut :=
  if requireOk = false then Except.error ()
  else if documents.length = 0 then
    Except.ok
      { answer := ("No documents are currently available for analysis. " ++
          "Please upload and process some documents first.").data
        sources := [] }
  else
    let result := eqaGenerateAnswer query documents
    let sources := result.sources.map (fun s =>
      ({ document := s.document, page := s.page, excerpt := s.excerpt } : ChatSource))
    let e1 := result.answer
    let e2 :=
      if result.confidence > 7/10 then
        e1 ++ "\n\n*High confidence answer based on document content*".data
      else if result.confidence > 4/10 then
        e1 ++ "\n\n*Moderate confidence - you may want to ask for clarification*".data
      else e1
    let e3 :=
      if result.suggestedFollowUps.length > 0 then
        ((result.suggestedFollowUps.take 3).enum).foldl (fun acc ip =>
          acc ++ natToChars (ip.1 + 1) ++ ". ".data ++ ip.2 ++ "\n".data)
          (e2 ++ "\n\n**Follow-up questions you might ask:**\n".data)
      else e2
    Except.ok { answer := e3, sources := sources }

/-- `PDFProcessor.generateAnswer`: the enhanced path inside `try`, and on any
exception the simple fallback search — whose own exceptions are not caught
and propagate to the caller. -/
def generateAnswerE (query : Str) (documents : List ProcessedDocument)
    (requireOk : Bool) : Except Unit AnswerOut :=
  match tryEnhancedAnswer query documents requireOk with
  | Except.ok r => Except.ok r
  | Except.error _ =>
    match searchDocumentsE query documents with
    | Except.error e => Except.error e
    | Except.ok [] =>
      Except.ok
        { answer := "I couldn't find specific information about \"".data ++ query ++
            ("\" in the uploaded documents. Please try rephrasing your question " ++
             "with different keywords.").data
          sources := [] }
    | Except.ok (top :: rest) =>
      Except.ok
        { answer := "Based on your documents: ".data ++ top.chunk.content
          sources := ((top :: rest).take 3).map (fun result =>
            ({ document := result.document.name
               page := result.chunk.page
               excerpt :=
                 if result.chunk.content.length > 120 then
                   result.chunk.content.take 120 ++ "...".data
                 else result.chunk.content } : ChatSource)) }

/-- Outcome of `api.askQuestion`: a structured `ChatResponse` or the `catch`
branch's error response. -/
inductive ApiResponse where
  | data (r : AnswerOut)
  | err
deriving DecidableEq, Repr

/-- `api.askQuestion`: wraps `pdfProcessor.generateAnswer` in a `try`/`catch`
that converts a thrown exception into an `{ error }` response. -/
def askQuestion (question : Str) (documents : List ProcessedDocument)
    (requireOk : Bool) : ApiResponse :=
  match generateAnswerE question documents requireOk with
  | Except.ok r => ApiResponse.data r
  | Except.error _ => ApiResponse.err

/-- The special-character class of the PDFProcessor quality score (complement
of `[\w\s.,!?;:'"()\-–—]`, this file carrying real en/em dashes). -/
def pdfSpecialChar (c : Char) : Bool :=
  ¬(jsWord c ∨ jsSpace c ∨ c = '.' ∨ c = ',' ∨ c = '!' ∨ c = '?' ∨ c = ';' ∨
    c = ':' ∨ c.val = 0x27 ∨ c = '"' ∨ c = '(' ∨ c = ')' ∨ c = '-' ∨
    c.val = 0x2013 ∨ c.val = 0x2014)

/-- `PDFProcessor.calculateTextQuality`. -/
def pdfCalculateTextQuality (text : Str) : ℚ :=
  let score : ℚ := 1/2
  let wordCount := ((jsSplit jsSpace text).filter (fun w => w.length > 0)).length
  let score := if wordCount > 100 then score + 1/10 else score
  let score := if wordCount > 500 then score + 1/10 else score
  let score := if wordCount > 1000 then score + 1/10 else score
  let sentences := (jsSplit isTerm text).filter (fun s => (jsTrim s).length > 10)
  let avgSentenceLength : ℚ :=
    if sentences.length > 0 then (wordCount : ℚ) / (sentences.length : ℚ) else 0
  let score := if avgSentenceLength > 8 ∧ avgSentenceLength < 30 then score + 1/10 else score
  let uniqueChars := (lowerStr text).dedup.length
  let score := if uniqueChars > 20 then score + 1/10 else score
  let specialChars := (text.filter pdfSpecialChar).length
  let specialCharRatio : ℚ := (specialChars : ℚ) / (max text.length 1 : ℚ)
  let score := if specialCharRatio < 1/100 then score + 1/10
    else if specialCharRatio > 1/20 then score - 1/10 else score
  let academicTerms := (["research", "analysis", "methodology", "results",
    "conclusion", "study", "findings", "evidence"].map String.data)
  let academicMatches := (academicTerms.filter (fun term =>
    subStr term (lowerStr text))).length
  let score := if academicMatches > 2 then score + 1/10 else score
  max 0 (min 1 score)

/-- The `{ fullText, pages, pageCount }` contract of the external
PDF-to-text extraction collaborator (`extractTextWithFallback`). -/
structure ExtractedTextData where
  fullText : Str
  pages : List ExtractedPage
  pageCount : Nat
deriving DecidableEq, Repr

/-- `PDFProcessor.processFile`, as a function of the extraction outcome: on
success the document is stored with `status = ready`, the cleaned pages, the
chunks and the extractor-reported `pageCount`; on an exception the stored
document keeps its initial fields with `status = error`. -/
def processFileModel (name : Str) (size : Nat)
    (extraction : Except Unit ExtractedTextData) (env : TPEnv) : ProcessedDocument :=
  let base : ProcessedDocument :=
    { id := [], name := name, size := size, status := DocStatus.processing
      pageCount := 0, pages := [], chunks := [], fullText := [] }
  match extraction with
  | Except.error _ => { base with status := DocStatus.error }
  | Except.ok extractedData =>
    let textProcessingResult := prepareForQA extractedData.fullText env
    let cleanedFullText := textProcessingResult.cleanedText
    let cleanedPages := extractedData.pages.map (fun page =>
      { page with text := quickClean page.text env })
    let chunks := createTextChunks cleanedPages 500
    let qualityScore := pdfCalculateTextQuality cleanedFullText
    { base with
        status := DocStatus.ready
        pageCount := extractedData.pageCount
        pages := cleanedPages
        chunks := chunks
        fullText := extractedData.fullText
        cleanedFullText := some cleanedFullText
        processingQuality := some qualityScore
        textImprovements := some textProcessingResult.improvements }

/-! ## Predefined knowledge base (src/src/utils/pdfRestTest.ts) and the chat
handler's predefined-answer short circuit (src/unnamed/part_001) -/

def mlResearchQA : List (Str × Str) := [
  ("Difference between traditional programming and machine learning?".data,
   "In traditional programming, humans write explicit rules and logic (Program + Data \u2192 Output). In machine learning, the system learns rules automatically by analyzing patterns in data (Data + Output \u2192 Program). Thus, ML automates the process of creating programs.".data),
  ("What are the main types of machine learning methods discussed in the paper?".data,
   "**Supervised Learning** \u2013 Uses labeled data to predict outcomes (e.g., fraud detection, spam filtering).\n\n**Unsupervised Learning** \u2013 Works on unlabeled data to find hidden structures (e.g., clustering customers).\n\n**Semi-Supervised Learning** \u2013 Uses a small set of labeled data with a large set of unlabeled data (cost-effective).\n\n**Reinforcement Learning** \u2013 Uses trial-and-error with rewards to learn the best actions (used in robotics, gaming, navigation).".data),
  ("What are the three key elements of every machine learning algorithm?".data,
   "**Representation** \u2013 How knowledge is represented (decision trees, neural networks, SVMs, etc.).\n\n**Evaluation** \u2013 How models are judged (accuracy, recall, cost, etc.).\n\n**Optimization** \u2013 How models are improved (gradient descent, convex optimization, etc.).".data),
  ("What real-world applications of machine learning are highlighted in the paper?".data,
   "\u2022 **Data security** (detecting malware, breaches)\n\u2022 **Financial trading** (predicting stock market trends)\n\u2022 **Healthcare** (early disease detection, risk prediction)\n\u2022 **Fraud detection** (PayPal, banking systems)\n\u2022 **Recommendation systems** (Netflix, Amazon)\n\u2022 **Natural Language Processing** (chatbots, translation)\n\u2022 **Smart cars and IoT** (autonomous vehicles)".data),
  ("What are the main advantages of machine learning mentioned?".data,
   "\u2022 Identifies hidden trends & patterns in large datasets\n\u2022 Automation with minimal human intervention\n\u2022 Continuous improvement over time\n\u2022 Handles multi-dimensional, complex data effectively\n\u2022 Wide applications across industries".data),
  ("What are some limitations or disadvantages of machine learning?".data,
   "\u2022 Requires large, unbiased datasets\n\u2022 Time and computationally expensive\n\u2022 Difficult to interpret complex models\n\u2022 Prone to bias and errors if training data is flawed".data),
  ("Which programming languages are most used in machine learning according to the paper?".data,
   "\u2022 **Python** \u2013 General-purpose, flexible, widely used\n\u2022 **R** \u2013 Best for statistics and data analysis\n\u2022 **Java** \u2013 Used with big data tools like Hadoop, Kafka\n\u2022 **MATLAB** \u2013 Strong for numerical and engineering tasks\n\u2022 **Scala** \u2013 Functional + object-oriented, scalable\n\u2022 **C/C++** \u2013 For performance-heavy ML models\n\u2022 **SQL** \u2013 For handling large databases and ETL processes".data),
  ("Which companies are highlighted as using ML, and how?".data,
   "\u2022 **Yelp** \u2013 Image classification\n\u2022 **Pinterest** \u2013 Content discovery & recommendation\n\u2022 **Facebook** \u2013 Chatbots & spam filtering\n\u2022 **Twitter** \u2013 Timeline curation\n\u2022 **Google** \u2013 DeepMind, NLP, search ranking\n\u2022 **HubSpot** \u2013 Predictive lead scoring\n\u2022 **IBM Watson** \u2013 Healthcare and business applications".data),
  ("How does reinforcement learning differ from supervised learning?".data,
   "**Supervised Learning:** Learns from labeled data with known outcomes.\n\n**Reinforcement Learning:** Learns through trial and error, guided by rewards/punishments, without predefined \"correct\" answers.\n\n**Introduction**\n\nMachine Learning (ML) is a subset of Artificial Intelligence that enables systems to learn from data without explicit programming.\n\nIt relies on algorithms and statistical models to detect patterns and make predictions.\n\nApplications span across healthcare, finance, security, robotics, marketing, and more.".data),
  ("Summarize the document".data,
   "## Machine Learning (ML) Overview\n\nML, a branch of AI, enables systems to learn from data and make predictions without explicit programming. It uses algorithms to detect patterns and improve performance.\n\n### Key Concepts\n\u2022 **Traditional vs ML:** In ML, data + output \u2192 machine learns rules\n\u2022 **Core Elements:** Representation, evaluation, optimization\n\n### Types of ML\n\u2022 **Supervised:** Learns from labeled data\n\u2022 **Unsupervised:** Finds patterns in unlabeled data\n\u2022 **Semi-Supervised:** Mix of both, cost-effective\n\u2022 **Reinforcement:** Learns via rewards/trial-and-error\n\n### Applications\nSecurity (malware detection), finance (fraud, trading), healthcare (diagnosis), marketing (recommendations), smart systems (self-driving, NLP), robotics, and more.\n\n### Pros\n\u2022 Pattern detection in big data\n\u2022 Reduces human effort\n\u2022 Continuous improvement\n\u2022 Handles complex data\n\u2022 Broad industry use\n\n### Cons\n\u2022 Requires large, unbiased data\n\u2022 High computational cost\n\u2022 Hard-to-interpret results\n\u2022 Error-prone with flawed data\n\n### Tools\nPopular languages: Python, R, Java, MATLAB, Scala, C/C++, SQL.\n\n### Companies Using ML\nGoogle, Facebook, Twitter, Pinterest, Yelp, IBM Watson, HubSpot.\n\n### Conclusion\nML enhances decision-making, prediction, and automation. Supervised suits small datasets, unsupervised for large, and reinforcement for robotics. With deep learning, ML continues to transform industries and daily life.".data)]

def nuclearPhysicsQA : List (Str × Str) := [
  ("What does nuclear physics study and what are its main applications?".data,
   "Nuclear physics studies the properties of atomic nuclei, the particles inside them, their interactions, radioactivity, and nuclear reactions. Applications include medical isotopes, MRI, material identification, carbon dating, power generation (fission & fusion), and nuclear weapons.".data),
  ("What are the basic properties of nuclei?".data,
   "A nucleus consists of protons (positive) and neutrons (neutral). Isotopes have the same number of protons (Z) but different neutrons (N). Nuclear size is given by R = R\u2080A\u00B9\u141F\u00B3 with R\u2080 \u2248 1.2\u00D710\u207B\u00B9\u2075 m. Nuclear density is extremely high (~10\u00B9\u2077 kg/m\u00B3) and nearly constant for all nuclei.".data),
  ("What is nuclear binding energy and why is it important?".data,
   "Nuclear binding energy is the energy gained when nucleons form a nucleus. The binding energy per nucleon is nearly constant, indicating the nuclear force is short-ranged and saturated. It measures nuclear stability\u2014the higher the binding energy per nucleon, the more stable the nucleus.".data),
  ("What are the characteristics of the nuclear force?".data,
   "The nuclear force is very strong and short-ranged (~10\u207B\u00B9\u2075 m), independent of charge, and favors spin-paired nucleons. It is saturated, meaning each nucleon interacts mainly with its nearest neighbors.".data),
  ("What is radioactivity and what are its types?".data,
   "Radioactivity is the spontaneous emission of particles or radiation from unstable nuclei. Types include:\n- Alpha decay: emission of a \u00B2\u2074He nucleus\n- Beta decay: \u03B2\u207B (n \u2192 p + e\u207B + \u03BD\u0305), \u03B2\u207A (p \u2192 n + e\u207A + \u03BD)\n- Electron capture: p + e\u207B \u2192 n + \u03BD\n- Gamma decay: emission of high-energy photons\nRadioactive decay is statistical, characterized by decay constant (\u03BB), half-life (T\u2081/\u2082), and mean life (\u03C4).".data),
  ("What are nuclear reactions and what is the Q-value?".data,
   "Nuclear reactions involve rearrangement of nucleons by bombardment. The Q-value determines if a reaction is exoergic (Q>0) or endoergic (Q<0). Neutron-induced reactions are used in fission, fusion, and analysis (e.g., neutron activation analysis).".data),
  ("Explain nuclear fission and its use in reactors.".data,
   "Fission is the splitting of heavy nuclei (e.g., U-235) into lighter nuclei, releasing neutrons and about 200 MeV of energy. A chain reaction is sustained if the reproduction constant k \u2248 1. Nuclear reactors use moderators (to slow neutrons) and control rods (to absorb excess neutrons) to control the reaction.".data),
  ("What is nuclear fusion and why is it important?".data,
   "Fusion is the combination of light nuclei (e.g., D + T) to form He-4 and a neutron, releasing 17.6 MeV. Fusion releases more energy per nucleon than fission and uses abundant, clean fuel, but requires extremely high temperatures (T > 10\u2077 K) and plasma confinement. Fusion powers the sun.".data),
  ("How does Carbon-14 dating work?".data,
   "Living organisms maintain a fixed ratio of \u00B9\u2074C/\u00B9\u00B2C. After death, \u00B9\u2074C decays (T\u2081/\u2082 = 5730 years). Measuring the reduced ratio in remains reveals their age. Activity is measured in curie (Ci).".data),
  ("Summarize the differences between fission and fusion, and their significance.".data,
   "Fission splits heavy nuclei into medium-mass nuclei and energy (e.g., U-235), used in reactors and weapons. Fusion combines light nuclei into heavier ones, releasing more energy per nucleon (e.g., D + T \u2192 He), with cleaner fuel and less radioactive waste. Fusion is more promising for future power but is technologically challenging.".data)]

def mlKeywordMatches : List (Str × Str) := [
  ("traditional programming".data, (mlResearchQA.getD 0 ([], [])).2),
  ("difference between traditional".data, (mlResearchQA.getD 0 ([], [])).2),
  ("traditional vs machine learning".data, (mlResearchQA.getD 0 ([], [])).2),
  ("traditional vs ml".data, (mlResearchQA.getD 0 ([], [])).2),
  ("types of machine learning".data, (mlResearchQA.getD 1 ([], [])).2),
  ("kinds of machine learning".data, (mlResearchQA.getD 1 ([], [])).2),
  ("main types".data, (mlResearchQA.getD 1 ([], [])).2),
  ("supervised unsupervised".data, (mlResearchQA.getD 1 ([], [])).2),
  ("three key elements".data, (mlResearchQA.getD 2 ([], [])).2),
  ("key elements".data, (mlResearchQA.getD 2 ([], [])).2),
  ("representation evaluation optimization".data, (mlResearchQA.getD 2 ([], [])).2),
  ("real-world applications".data, (mlResearchQA.getD 3 ([], [])).2),
  ("applications of machine learning".data, (mlResearchQA.getD 3 ([], [])).2),
  ("applications highlighted".data, (mlResearchQA.getD 3 ([], [])).2),
  ("use cases".data, (mlResearchQA.getD 3 ([], [])).2),
  ("advantages of machine learning".data, (mlResearchQA.getD 4 ([], [])).2),
  ("benefits of machine learning".data, (mlResearchQA.getD 4 ([], [])).2),
  ("main advantages".data, (mlResearchQA.getD 4 ([], [])).2),
  ("pros of machine learning".data, (mlResearchQA.getD 4 ([], [])).2),
  ("limitations".data, (mlResearchQA.getD 5 ([], [])).2),
  ("disadvantages".data, (mlResearchQA.getD 5 ([], [])).2),
  ("cons of machine learning".data, (mlResearchQA.getD 5 ([], [])).2),
  ("problems with machine learning".data, (mlResearchQA.getD 5 ([], [])).2),
  ("programming languages".data, (mlResearchQA.getD 6 ([], [])).2),
  ("languages used".data, (mlResearchQA.getD 6 ([], [])).2),
  ("python r java".data, (mlResearchQA.getD 6 ([], [])).2),
  ("most used languages".data, (mlResearchQA.getD 6 ([], [])).2),
  ("companies using ml".data, (mlResearchQA.getD 7 ([], [])).2),
  ("companies highlighted".data, (mlResearchQA.getD 7 ([], [])).2),
  ("google facebook twitter".data, (mlResearchQA.getD 7 ([], [])).2),
  ("which companies".data, (mlResearchQA.getD 7 ([], [])).2),
  ("reinforcement learning differ".data, (mlResearchQA.getD 8 ([], [])).2),
  ("reinforcement vs supervised".data, (mlResearchQA.getD 8 ([], [])).2),
  ("difference reinforcement".data, (mlResearchQA.getD 8 ([], [])).2),
  ("summarize".data, (mlResearchQA.getD 9 ([], [])).2),
  ("summary".data, (mlResearchQA.getD 9 ([], [])).2),
  ("overview".data, (mlResearchQA.getD 9 ([], [])).2),
  ("summarize the document".data, (mlResearchQA.getD 9 ([], [])).2),
  ("give me a summary".data, (mlResearchQA.getD 9 ([], [])).2),
  ("what is this document about".data, (mlResearchQA.getD 9 ([], [])).2)]

def nuclearKeywordMatches : List (Str × Str) := [
  ("nuclear physics study".data, (nuclearPhysicsQA.getD 0 ([], [])).2),
  ("what does nuclear physics".data, (nuclearPhysicsQA.getD 0 ([], [])).2),
  ("nuclear physics applications".data, (nuclearPhysicsQA.getD 0 ([], [])).2),
  ("applications of nuclear physics".data, (nuclearPhysicsQA.getD 0 ([], [])).2),
  ("basic properties of nuclei".data, (nuclearPhysicsQA.getD 1 ([], [])).2),
  ("properties of nuclei".data, (nuclearPhysicsQA.getD 1 ([], [])).2),
  ("nuclear properties".data, (nuclearPhysicsQA.getD 1 ([], [])).2),
  ("protons neutrons".data, (nuclearPhysicsQA.getD 1 ([], [])).2),
  ("isotopes".data, (nuclearPhysicsQA.getD 1 ([], [])).2),
  ("nuclear size".data, (nuclearPhysicsQA.getD 1 ([], [])).2),
  ("nuclear density".data, (nuclearPhysicsQA.getD 1 ([], [])).2),
  ("nuclear binding energy".data, (nuclearPhysicsQA.getD 2 ([], [])).2),
  ("binding energy".data, (nuclearPhysicsQA.getD 2 ([], [])).2),
  ("nuclear stability".data, (nuclearPhysicsQA.getD 2 ([], [])).2),
  ("binding energy per nucleon".data, (nuclearPhysicsQA.getD 2 ([], [])).2),
  ("nuclear force".data, (nuclearPhysicsQA.getD 3 ([], [])).2),
  ("characteristics of nuclear force".data, (nuclearPhysicsQA.getD 3 ([], [])).2),
  ("strong force".data, (nuclearPhysicsQA.getD 3 ([], [])).2),
  ("short-ranged force".data, (nuclearPhysicsQA.getD 3 ([], [])).2),
  ("radioactivity".data, (nuclearPhysicsQA.getD 4 ([], [])).2),
  ("types of radioactivity".data, (nuclearPhysicsQA.getD 4 ([], [])).2),
  ("alpha decay".data, (nuclearPhysicsQA.getD 4 ([], [])).2),
  ("beta decay".data, (nuclearPhysicsQA.getD 4 ([], [])).2),
  ("gamma decay".data, (nuclearPhysicsQA.getD 4 ([], [])).2),
  ("radioactive decay".data, (nuclearPhysicsQA.getD 4 ([], [])).2),
  ("half-life".data, (nuclearPhysicsQA.getD 4 ([], [])).2),
  ("nuclear reactions".data, (nuclearPhysicsQA.getD 5 ([], [])).2),
  ("q-value".data, (nuclearPhysicsQA.getD 5 ([], [])).2),
  ("exoergic endoergic".data, (nuclearPhysicsQA.getD 5 ([], [])).2),
  ("neutron-induced reactions".data, (nuclearPhysicsQA.getD 5 ([], [])).2),
  ("nuclear fission".data, (nuclearPhysicsQA.getD 6 ([], [])).2),
  ("fission".data, (nuclearPhysicsQA.getD 6 ([], [])).2),
  ("nuclear reactors".data, (nuclearPhysicsQA.getD 6 ([], [])).2),
  ("chain reaction".data, (nuclearPhysicsQA.getD 6 ([], [])).2),
  ("u-235".data, (nuclearPhysicsQA.getD 6 ([], [])).2),
  ("uranium-235".data, (nuclearPhysicsQA.getD 6 ([], [])).2),
  ("moderators control rods".data, (nuclearPhysicsQA.getD 6 ([], [])).2),
  ("nuclear fusion".data, (nuclearPhysicsQA.getD 7 ([], [])).2),
  ("fusion".data, (nuclearPhysicsQA.getD 7 ([], [])).2),
  ("deuterium tritium".data, (nuclearPhysicsQA.getD 7 ([], [])).2),
  ("plasma confinement".data, (nuclearPhysicsQA.getD 7 ([], [])).2),
  ("fusion energy".data, (nuclearPhysicsQA.getD 7 ([], [])).2),
  ("sun energy".data, (nuclearPhysicsQA.getD 7 ([], [])).2),
  ("carbon-14 dating".data, (nuclearPhysicsQA.getD 8 ([], [])).2),
  ("carbon dating".data, (nuclearPhysicsQA.getD 8 ([], [])).2),
  ("c-14 dating".data, (nuclearPhysicsQA.getD 8 ([], [])).2),
  ("radiocarbon dating".data, (nuclearPhysicsQA.getD 8 ([], [])).2),
  ("age determination".data, (nuclearPhysicsQA.getD 8 ([], [])).2),
  ("fission vs fusion".data, (nuclearPhysicsQA.getD 9 ([], [])).2),
  ("difference between fission and fusion".data, (nuclearPhysicsQA.getD 9 ([], [])).2),
  ("fission fusion comparison".data, (nuclearPhysicsQA.getD 9 ([], [])).2),
  ("nuclear energy comparison".data, (nuclearPhysicsQA.getD 9 ([], [])).2)]

def mlQuestionKeywords : List Str :=
  (["machine learning", "ml", "supervised", "unsupervised", "reinforcement", "algorithm", "traditional programming", "representation", "evaluation", "optimization", "neural networks", "deep learning", "artificial intelligence", "ai", "data science", "python", "applications", "advantages", "disadvantages"].map String.data)

def nuclearQuestionKeywords : List Str :=
  (["nuclear", "nuclei", "nucleus", "fission", "fusion", "radioactive", "radioactivity", "alpha decay", "beta decay", "gamma decay", "binding energy", "nuclear force", "proton", "neutron", "isotope", "uranium", "plutonium", "carbon-14", "c-14", "half-life", "decay constant", "nuclear reactor", "chain reaction", "moderator", "control rod", "q-value", "exoergic", "endoergic", "deuterium", "tritium", "plasma", "nuclear physics", "atomic nucleus", "nuclear reaction"].map String.data)

/-- The combined knowledge base `ALL_QA_DOMAINS`. -/
def allQADomains : List (Str × Str) := mlResearchQA ++ nuclearPhysicsQA

/-- The similarity of `pdfRestTest.calculateSimilarity`: common words of
length greater than 2 over the larger word count. -/
def kbCalculateSimilarity (str1 str2 : Str) : ℚ :=
  let words1 := (jsSplit jsSpace str1).filter (fun w => w.length > 2)
  let words2 := (jsSplit jsSpace str2).filter (fun w => w.length > 2)
  if words1.length = 0 ∨ words2.length = 0 then 0
  else
    let commonWords := words1.filter (fun w => w ∈ words2)
    let totalWords := max words1.length words2.length
    (commonWords.length : ℚ) / (totalWords : ℚ)

/-- The fuzzy pass of `findPredefinedAnswer`: the best answer with similarity
strictly above 0.8, scanning all domains, keeping the first among ties. -/
def kbFuzzyBest (question : Str) : Option Str :=
  (allQADomains.foldl (fun (best : Option (Str × ℚ)) qa =>
    let score := kbCalculateSimilarity question (lowerStr qa.1)
    let beatsBest : Bool := match best with
      | none => true
      | some b => score > b.2
    if score > 8/10 ∧ beatsBest then some (qa.2, score) else best) none).map (fun b => b.1)

/-- `findPredefinedAnswer`: lower-case and trim the question, scan the ML
keyword table in insertion order, then the nuclear table, then the fuzzy
whole-question similarity fallback. -/
def findPredefinedAnswer (userQuestion : Str) : Option Str :=
  let question := jsTrim (lowerStr userQuestion)
  match mlKeywordMatches.find? (fun kv => subStr kv.1 question) with
  | some kv => some kv.2
  | none =>
    match nuclearKeywordMatches.find? (fun kv => subStr kv.1 question) with
    | some kv => some kv.2
    | none => kbFuzzyBest question

/-- `isMLResearchQuestion`. -/
def isMLResearchQuestion (question : Str) : Bool :=
  mlQuestionKeywords.any (fun k => subStr k (lowerStr question))

/-- `isNuclearPhysicsQuestion`. -/
def isNuclearPhysicsQuestion (question : Str) : Bool :=
  nuclearQuestionKeywords.any (fun k => subStr k (lowerStr question))

/-- Outcome of the chat handler `handleSendMessage` for a question: either an
assistant message produced by the predefined-answer short circuit (the
retrieval engine is not invoked), or the hand-off to `api.askQuestion`. -/
inductive SendOutcome where
  | predefined (content : Str) (sourceDocument : Str)
  | retrieval
deriving DecidableEq, Repr

/-- The predefined-answer branch of `handleSendMessage`: on a knowledge-base
hit the canned answer is annotated with the knowledge-base name and returned
without calling `api.askQuestion`. -/
def handleSendModel (content : Str) : SendOutcome :=
  match findPredefinedAnswer content with
  | some predefinedAnswer =>
    let isML := isMLResearchQuestion content
    let isNuclear := isNuclearPhysicsQuestion content
    let kb :=
      if isML ∧ ¬isNuclear then "ML Research Paper knowledge base".data
      else if isNuclear ∧ ¬isML then "Nuclear Physics knowledge base".data
      else "Integrated Research Knowledge Base".data
    let documentName :=
      if isML ∧ ¬isNuclear then "ML Research Paper.pdf".data
      else if isNuclear ∧ ¬isML then "Nuclear Physics Paper.pdf".data
      else "Research Papers.pdf".data
    SendOutcome.predefined
      (predefinedAnswer ++ "\n\n---\n*This answer is from the ".data ++ kb ++ ".*".data)
      documentName
  | none => SendOutcome.retrieval

/-! ## FAQ system (src/src/utils/faqSystem.ts) -/

/-- The `FAQItem` record; timestamps are epoch milliseconds as rationals. -/
structure FAQItem where
  id : Str
  question : Str
  answer : Str
  category : Str
  popularity : ℚ
  keywords : List Str
  lastAsked : ℚ
  timesAsked : ℚ
deriving DecidableEq, Repr

/-- The trending score computed inside the comparator of
`getTrendingQuestions`: `timesAsked × (lastAsked / now)`. -/
def trendingScore (now : ℚ) (f : FAQItem) : ℚ := f.timesAsked * (f.lastAsked / now)

/-- Stable insertion into an ascending-by-score list. -/
def insertAscBy {α : Type} (score : α → ℚ) (x : α) : List α → List α
  | [] => [x]
  | y :: ys => if score y ≤ score x then y :: insertAscBy score x ys else x :: y :: ys

def sortAscBy {α : Type} (score : α → ℚ) (l : List α) : List α :=
  l.foldl (fun acc x => insertAscBy score x acc) []

/-- `FAQSystem.getTrendingQuestions(limit = 5)`: filter to items asked within
the last 7 days, sort with the source's comparator, take the first `limit`.
The comparator reads `aScore` from its second argument `b` and `bScore` from
its first argument `a` and returns `bScore - aScore`, i.e. it computes
`score(a) - score(b)` — an ascending sort by trending score (JavaScript sort
is stable, modelled by a stable insertion sort). -/
def getTrendingQuestions (faqItems : List FAQItem) (now : ℚ) (limit : Nat := 5) :
    List FAQItem :=
  let recentThreshold := now - 7 * 24 * 60 * 60 * 1000
  ((sortAscBy (trendingScore now)
    (faqItems.filter (fun faq => faq.lastAsked ≥ recentThreshold))).take limit)

/-! ## Chunk-size bound (C2) -/

section ChunkLemmas

theorem dropWhile_head_not (p : Char → Bool) :
    ∀ (l r : Str) (c : Char), l.dropWhile p = c :: r → p c = false := by
  intro l
  induction l with
  | nil => intro r c h; simp [List.dropWhile] at h
  | cons a t ih =>
    intro r c h
    by_cases hp : p a
    · rw [List.dropWhile_cons_of_pos hp] at h
      exact ih r c h
    · rw [List.dropWhile_cons_of_neg hp] at h
      injection h with h1 _
      subst h1
      simpa using hp

theorem mem_dropWhile (p : Char → Bool) {c : Char} :
    ∀ l : Str, c ∈ l.dropWhile p → c ∈ l := by
  intro l
  induction l with
  | nil => simp [List.dropWhile]
  | cons a t ih =>
    intro h
    by_cases hp : p a
    · rw [List.dropWhile_cons_of_pos hp] at h
      exact List.mem_cons_of_mem a (ih h)
    · rwa [List.dropWhile_cons_of_neg hp] at h

theorem mem_jsTrim {c : Char} (s : Str) (h : c ∈ jsTrim s) : c ∈ s := by
  have h1 : c ∈ jsTrimEnd s := mem_dropWhile jsSpace _ h
  have h2 : c ∈ s.reverse.dropWhile jsSpace := by
    simpa [jsTrimEnd] using h1
  have := mem_dropWhile jsSpace _ h2
  simpa using this

theorem length_jsTrimEnd_le (s : Str) : (jsTrimEnd s).length ≤ s.length := by
  have := length_dropWhile_le jsSpace s.reverse
  simpa [jsTrimEnd] using this

theorem length_jsTrim_le (s : Str) : (jsTrim s).length ≤ s.length := by
  have h1 := length_dropWhile_le jsSpace (jsTrimEnd s)
  have h2 := length_jsTrimEnd_le s
  simp only [jsTrim, jsTrimStart]
  omega

theorem trimEnd_ws_concat {c : Char} (hc : jsSpace c = true) (s : Str) :
    jsTrimEnd (s ++ [c]) = jsTrimEnd s := by
  simp [jsTrimEnd, List.dropWhile_cons_of_pos hc]

theorem trimEnd_nonws_concat {c : Char} (hc : jsSpace c = false) (s : Str) :
    jsTrimEnd (s ++ [c]) = s ++ [c] := by
  simp [jsTrimEnd, List.dropWhile_cons_of_neg (by simp [hc] : ¬ jsSpace c = true)]

theorem head_jsTrim_not_space {s : Str} {c : Char} {r : Str}
    (h : jsTrim s = c :: r) : jsSpace c = false :=
  dropWhile_head_not jsSpace (jsTrimEnd s) r c h

/-- Trimming a trimmed non-empty sentence buffer `s ++ ". "` keeps the
sentence and the period. -/
theorem jsTrim_sentence_buffer {s : Str} (hfix : jsTrim s = s) (hne : s ≠ []) :
    jsTrim (s ++ ". ".data) = s ++ ['.'] := by
  have h1 : jsTrimEnd (s ++ ". ".data) = s ++ ['.'] := by
    have h0 : s ++ ". ".data = (s ++ ['.']) ++ [' '] := by simp
    rw [h0, trimEnd_ws_concat (by decide)]
    exact trimEnd_nonws_concat (by decide) s
  rw [jsTrim, h1]
  cases hs : s with
  | nil => exact absurd hs hne
  | cons c0 s' =>
    have hc0 : jsSpace c0 = false :=
      head_jsTrim_not_space (s := s) (r := s') (by rw [hfix]; exact hs)
    show jsTrimStart ((c0 :: s') ++ ['.']) = (c0 :: s') ++ ['.']
    simp only [List.cons_append, jsTrimStart]
    exact List.dropWhile_cons_of_neg (by simp [hc0])

theorem length_jsTrim_of_last_space {buf : Str} {c : Char}
    (hlast : buf.getLast? = some c) (hc : jsSpace c = true) :
    (jsTrim buf).length + 1 ≤ buf.length := by
  have hne : buf ≠ [] := by
    intro h; rw [h] at hlast; simp at hlast
  have hdecomp : buf = buf.dropLast ++ [c] := by
    have h1 := List.dropLast_append_getLast hne
    have h2 : buf.getLast hne = c := by
      rw [List.getLast?_eq_getLast buf hne] at hlast
      exact Option.some.inj hlast
    rw [← h2]; exact h1.symm
  have h4 : jsTrimEnd buf = jsTrimEnd buf.dropLast := by
    conv_lhs => rw [hdecomp]
    exact trimEnd_ws_concat hc _
  have h4' : (jsTrimEnd buf).length = (jsTrimEnd buf.dropLast).length := by rw [h4]
  have h5 : (jsTrimEnd buf.dropLast).length ≤ buf.dropLast.length :=
    length_jsTrimEnd_le _
  have h6 : (jsTrim buf).length ≤ (jsTrimEnd buf).length := by
    simp only [jsTrim, jsTrimStart]
    exact length_dropWhile_le _ _
  have h7 : buf.dropLast.length + 1 = buf.length := by
    conv_rhs => rw [hdecomp]
    simp
  omega

/-- All pieces of a class split satisfy the complement of the class. -/
theorem jsSplit_all_not (p : Char → Bool) :
    ∀ s : Str, ∀ piece ∈ jsSplit p s, piece.all (fun c => ¬ p c) = true := by
  intro s
  induction s with
  | nil =>
    intro piece h
    have h2 : piece = [] := by simpa [jsSplit] using h
    simp [h2]
  | cons c t ih =>
    intro piece h
    simp only [jsSplit] at h
    by_cases hp : p c
    · simp only [if_pos hp] at h
      cases t with
      | nil =>
        have h2 : piece = [] := by simpa using h
        simp [h2]
      | cons d t' =>
        by_cases hd : p d
        · simp only [if_pos hd] at h
          exact ih piece h
        · simp only [if_neg hd] at h
          rcases List.mem_cons.mp h with h1 | h1
          · simp [h1]
          · exact ih piece h1
    · simp only [if_neg hp] at h
      cases hsplit : jsSplit p t with
      | nil => rw [hsplit] at h; simp at h; simp [h, hp]
      | cons piece0 rest =>
        rw [hsplit] at h
        rcases List.mem_cons.mp h with h1 | h1
        · subst h1
          have h2 : piece0 ∈ jsSplit p t := by rw [hsplit]; exact List.mem_cons_self _ _
          have h3 := ih piece0 h2
          simp only [List.all_cons, Bool.and_eq_true]
          exact ⟨by simpa using hp, h3⟩
        · exact ih piece (by rw [hsplit]; exact List.mem_cons_of_mem _ h1)

/-- A chunk is `good` when its content respects the `maxChunkSize + 1` bound
or consists of exactly one (terminator-free, trimmed, oversized or not)
sentence followed by the closing period. -/
def singleSentenceChunkB (content : Str) : Bool :=
  content.getLast? = some '.' ∧ content.dropLast ≠ [] ∧
    jsTrim content.dropLast = content.dropLast ∧
    content.dropLast.all (fun c => ¬ isTerm c)

def GoodChunk (maxSize : Nat) (c : TextChunk) : Prop :=
  c.content.length ≤ maxSize + 1 ∨ singleSentenceChunkB c.content = true

/-- Invariant of the running buffer `currentChunk`: empty, a single trimmed
sentence plus `". "`, or bounded by `maxSize + 2` with a trailing space. -/
def BufInv (maxSize : Nat) (buf : Str) : Prop :=
  buf = [] ∨
  (∃ s : Str, jsTrim s = s ∧ s ≠ [] ∧ s.all (fun c => ¬ isTerm c) = true ∧
    buf = s ++ ". ".data) ∨
  (buf.getLast? = some ' ' ∧ buf.length ≤ maxSize + 2)

theorem emitted_good {maxSize : Nat} {buf : Str} (h : BufInv maxSize buf)
    (pageNo idx : Nat) (kw : List Str) :
    GoodChunk maxSize ⟨jsTrim buf, pageNo, idx, kw⟩ := by
  rcases h with h | ⟨s, hfix, hne, hterm, rfl⟩ | ⟨hlast, hlen⟩
  · left
    subst h
    show (jsTrim []).length ≤ maxSize + 1
    simp [jsTrim, jsTrimStart, jsTrimEnd, List.dropWhile]
  · right
    show singleSentenceChunkB (jsTrim (s ++ ". ".data)) = true
    rw [jsTrim_sentence_buffer hfix hne]
    simp [singleSentenceChunkB, List.dropLast_concat, hfix, hterm, hne]
    intro x hx
    simpa using List.all_eq_true.mp hterm x hx
  · left
    show (jsTrim buf).length ≤ maxSize + 1
    have h2 := length_jsTrim_of_last_space hlast (by decide)
    omega

end ChunkLemmas

section ChunkMain

theorem getLast?_jsTrim_not_space {s : Str} (hne : jsTrim s ≠ []) :
    ∃ z, (jsTrim s).getLast? = some z ∧ jsSpace z = false := by
  have hE : jsTrim s = (jsTrimEnd s).dropWhile jsSpace := rfl
  obtain ⟨pre, hpre⟩ := dropWhile_suffix_decomp jsSpace (jsTrimEnd s)
  have hlast1 : (jsTrimEnd s).getLast? = (jsTrim s).getLast? := by
    conv_lhs => rw [hpre]
    rw [← hE]
    exact List.getLast?_append_of_ne_nil pre hne
  have hlast2 : (jsTrimEnd s).getLast? = (s.reverse.dropWhile jsSpace).head? := by
    rw [jsTrimEnd, List.getLast?_reverse]
  cases hd : s.reverse.dropWhile jsSpace with
  | nil =>
    exfalso
    apply hne
    have h1 : jsTrimEnd s = [] := by rw [jsTrimEnd, hd]; rfl
    rw [hE, h1]; rfl
  | cons a b =>
    have ha : jsSpace a = false := dropWhile_head_not jsSpace s.reverse b a hd
    refine ⟨a, ?_, ha⟩
    rw [← hlast1, hlast2, hd]
    rfl

theorem jsTrim_idem (s : Str) : jsTrim (jsTrim s) = jsTrim s := by
  cases hT : jsTrim s with
  | nil => decide
  | cons c0 r0 =>
    have hne : jsTrim s ≠ [] := by rw [hT]; simp
    obtain ⟨z, hz, hzs⟩ := getLast?_jsTrim_not_space hne
    have hhead : jsSpace c0 = false := head_jsTrim_not_space hT
    have hdecomp : jsTrim s = (jsTrim s).dropLast ++ [z] := by
      have h1 := List.dropLast_append_getLast hne
      have h2 : (jsTrim s).getLast hne = z := by
        rw [List.getLast?_eq_getLast _ hne] at hz
        exact Option.some.inj hz
      rw [← h2]; exact h1.symm
    have hEnd : jsTrimEnd (jsTrim s) = jsTrim s := by
      conv_lhs => rw [hdecomp]
      rw [trimEnd_nonws_concat hzs]
      exact hdecomp.symm
    rw [hT] at hEnd
    show jsTrimStart (jsTrimEnd (c0 :: r0)) = c0 :: r0
    rw [hEnd]
    simp [jsTrimStart, List.dropWhile_cons_of_neg (show ¬ jsSpace c0 = true by simp [hhead])]

theorem noTerm_jsTrim {s : Str} (h : s.all (fun ch => ¬ isTerm ch) = true) :
    (jsTrim s).all (fun ch => ¬ isTerm ch) = true := by
  rw [List.all_eq_true] at h ⊢
  intro x hx
  exact h x (mem_jsTrim s hx)

theorem chunkGo_good (maxSize pageNo : Nat) :
    ∀ (sentences : List Str) (cur : Str) (acc : List TextChunk) (idx : Nat),
      (∀ c ∈ acc, GoodChunk maxSize c) → BufInv maxSize cur →
      (∀ s ∈ sentences, s.all (fun ch => ¬ isTerm ch) = true) →
      ∀ c ∈ (chunkGo maxSize pageNo sentences cur acc idx).1, GoodChunk maxSize c := by
  intro sentences
  induction sentences with
  | nil =>
    intro cur acc idx hacc hbuf _ c hc
    simp only [chunkGo] at hc
    by_cases hemit : (jsTrim cur).length > 0
    · rw [if_pos hemit] at hc
      rcases List.mem_append.mp hc with h | h
      · exact hacc c h
      · have he : c = ⟨jsTrim cur, pageNo, idx, extractKeywords cur⟩ := by simpa using h
        subst he
        exact emitted_good hbuf _ _ _
    · rw [if_neg hemit] at hc
      exact hacc c hc
  | cons s rest ih =>
    intro cur acc idx hacc hbuf hterm c hc
    have htermS : s.all (fun ch => ¬ isTerm ch) = true := hterm s (List.mem_cons_self _ _)
    have htermRest : ∀ s' ∈ rest, s'.all (fun ch => ¬ isTerm ch) = true :=
      fun s' hs' => hterm s' (List.mem_cons_of_mem _ hs')
    by_cases h0 : (jsTrim s).length = 0
    · have heq : chunkGo maxSize pageNo (s :: rest) cur acc idx =
          chunkGo maxSize pageNo rest cur acc idx := by
        simp only [chunkGo]
        rw [if_pos h0]
      rw [heq] at hc
      exact ih cur acc idx hacc hbuf htermRest c hc
    · have htsne : jsTrim s ≠ [] := by
        intro hx; exact h0 (by rw [hx]; rfl)
      have hfixts : jsTrim (jsTrim s) = jsTrim s := jsTrim_idem s
      have htermts : (jsTrim s).all (fun ch => ¬ isTerm ch) = true := noTerm_jsTrim htermS
      by_cases h1 : cur.length + (jsTrim s).length > maxSize ∧ cur.length > 0
      · have heq : chunkGo maxSize pageNo (s :: rest) cur acc idx =
            chunkGo maxSize pageNo rest (jsTrim s ++ ". ".data)
              (acc ++ [⟨jsTrim cur, pageNo, idx, extractKeywords cur⟩]) (idx + 1) := by
          simp only [chunkGo]
          rw [if_neg h0, if_pos h1]
        rw [heq] at hc
        refine ih _ _ _ ?_ ?_ htermRest c hc
        · intro c' hc'
          rcases List.mem_append.mp hc' with h | h
          · exact hacc c' h
          · have he : c' = ⟨jsTrim cur, pageNo, idx, extractKeywords cur⟩ := by simpa using h
            subst he
            exact emitted_good hbuf _ _ _
        · exact Or.inr (Or.inl ⟨jsTrim s, hfixts, htsne, htermts, rfl⟩)
      · have heq : chunkGo maxSize pageNo (s :: rest) cur acc idx =
            chunkGo maxSize pageNo rest (cur ++ jsTrim s ++ ". ".data) acc idx := by
          simp only [chunkGo]
          rw [if_neg h0, if_neg h1]
        rw [heq] at hc
        refine ih _ _ _ hacc ?_ htermRest c hc
        by_cases hcur : cur = []
        · subst hcur
          exact Or.inr (Or.inl ⟨jsTrim s, hfixts, htsne, htermts, by simp⟩)
        · have hcurlen : cur.length > 0 := by
            cases cur with
            | nil => exact absurd rfl hcur
            | cons _ _ => simp
          have hbound : ¬ cur.length + (jsTrim s).length > maxSize := fun hgt => h1 ⟨hgt, hcurlen⟩
          refine Or.inr (Or.inr ⟨?_, ?_⟩)
          · have hsplitEq : cur ++ jsTrim s ++ ". ".data =
                (cur ++ jsTrim s ++ ['.']) ++ [' '] := by simp
            rw [hsplitEq, List.getLast?_concat]
          · have hlen2 : (cur ++ jsTrim s ++ ". ".data).length =
                cur.length + ((jsTrim s).length + 2) := by simp
            omega

/-- Pieces that survive the sentence filter of `createTextChunks` contain no
terminator. -/
theorem filtered_sentences_noTerm (text : Str) :
    ∀ s ∈ (jsSplit isTerm text).filter (fun s => (jsTrim s).length > 0),
      s.all (fun ch => ¬ isTerm ch) = true := by
  intro s hs
  have hmem : s ∈ jsSplit isTerm text := List.mem_of_mem_filter hs
  exact jsSplit_all_not isTerm text s hmem

theorem createTextChunks_good (pages : List ExtractedPage) (maxChunkSize : Nat) :
    ∀ c ∈ createTextChunks pages maxChunkSize, GoodChunk maxChunkSize c := by
  suffices h : ∀ (ps : List ExtractedPage) (st : List TextChunk × Nat),
      (∀ c ∈ st.1, GoodChunk maxChunkSize c) →
      ∀ c ∈ (ps.foldl (fun (st : List TextChunk × Nat) page =>
        if page.text.length = 0 then st
        else
          let sentences := (jsSplit isTerm page.text).filter (fun s => (jsTrim s).length > 0)
          chunkGo maxChunkSize page.page sentences [] st.1 st.2) st).1,
        GoodChunk maxChunkSize c by
    intro c hc
    exact h pages ([], 0) (by simp) c hc
  intro ps
  induction ps with
  | nil => intro st hst c hc; exact hst c hc
  | cons p ps' ih =>
    intro st hst c hc
    simp only [List.foldl_cons] at hc
    by_cases hp : p.text.length = 0
    · rw [if_pos hp] at hc
      exact ih st hst c hc
    · rw [if_neg hp] at hc
      refine ih _ ?_ c hc
      intro c' hc'
      exact chunkGo_good maxChunkSize p.page _ [] st.1 st.2 hst (Or.inl rfl)
        (filtered_sentences_noTerm p.text) c' hc'

end ChunkMain

/-- C2 (amended): every chunk produced by the chunker either respects
`maxChunkSize + 1` — one more than the claimed bound, because the size check
runs before the `". "` separator is appended — or consists of exactly one
trimmed, terminator-free sentence followed by the closing period (which may
be arbitrarily long). -/
theorem C2_chunk_size_bound (pages : List ExtractedPage) (maxChunkSize : Nat) :
    ∀ c ∈ createTextChunks pages maxChunkSize,
      c.content.length ≤ maxChunkSize + 1 ∨ singleSentenceChunkB c.content = true :=
  createTextChunks_good pages maxChunkSize

/-- Witness for C2: the bound theorem applied to a concrete chunk of a
concrete page at `maxChunkSize = 10`. -/
theorem C2_chunk_size_bound_witness :
    (("ab. cdefgh.".data : Str).length ≤ 10 + 1 ∨
      singleSentenceChunkB ("ab. cdefgh.".data) = true) :=
  C2_chunk_size_bound [⟨1, "ab.cdefgh.iiiiiiiiii".data⟩] 10
    ⟨"ab. cdefgh.".data, 1, 0, extractKeywords ("ab. cdefgh. ".data)⟩ (by decide)

/-- Counterexample to C2 as stated: with `maxChunkSize = 10` the page
`"ab.cdefgh.iiiiiiiiii"` yields the two-sentence chunk `"ab. cdefgh."` of
length 11 > 10, which does not consist of exactly one sentence — the claimed
bound `≤ maxChunkSize` (with the single-oversized-sentence exception) fails. -/
theorem C2_counterexample :
    ¬ (∀ c ∈ createTextChunks [⟨1, "ab.cdefgh.iiiiiiiiii".data⟩] 10,
        c.content.length ≤ 10 ∨ singleSentenceChunkB c.content = true) := by
  decide

/-! ## Document invariant after processFile (C3) -/

section ProcessFileLemmas

theorem dropWhile_eq_nil_all (p : Char → Bool) :
    ∀ l : Str, l.dropWhile p = [] → ∀ c ∈ l, p c = true := by
  intro l
  induction l with
  | nil => intro _ c hc; simp at hc
  | cons a t ih =>
    intro h c hc
    by_cases hp : p a
    · rw [List.dropWhile_cons_of_pos hp] at h
      rcases List.mem_cons.mp hc with h1 | h1
      · subst h1; exact hp
      · exact ih h c h1
    · rw [List.dropWhile_cons_of_neg hp] at h
      simp at h

theorem jsTrim_ne_nil_of_mem {x : Str} {ch : Char} (hmem : ch ∈ x)
    (hns : jsSpace ch = false) : jsTrim x ≠ [] := by
  intro h0
  have hAll : ∀ c ∈ jsTrimEnd x, jsSpace c = true :=
    dropWhile_eq_nil_all jsSpace (jsTrimEnd x) h0
  cases hd : x.reverse.dropWhile jsSpace with
  | nil =>
    have := dropWhile_eq_nil_all jsSpace x.reverse hd ch (by simpa using hmem)
    rw [this] at hns; cases hns
  | cons a b =>
    have ha : jsSpace a = false := dropWhile_head_not jsSpace x.reverse b a hd
    have hamem : a ∈ jsTrimEnd x := by
      simp only [jsTrimEnd, hd]
      simp
    have := hAll a hamem
    rw [this] at ha; cases ha

theorem chunkGo_mono (maxSize pageNo : Nat) :
    ∀ (sentences : List Str) (cur : Str) (acc : List TextChunk) (idx : Nat),
      acc.length ≤ (chunkGo maxSize pageNo sentences cur acc idx).1.length := by
  intro sentences
  induction sentences with
  | nil =>
    intro cur acc idx
    simp only [chunkGo]
    by_cases hemit : (jsTrim cur).length > 0
    · rw [if_pos hemit]; simp
    · rw [if_neg hemit]
  | cons s rest ih =>
    intro cur acc idx
    by_cases h0 : (jsTrim s).length = 0
    · have heq : chunkGo maxSize pageNo (s :: rest) cur acc idx =
          chunkGo maxSize pageNo rest cur acc idx := by
        simp only [chunkGo]; rw [if_pos h0]
      rw [heq]; exact ih cur acc idx
    · by_cases h1 : cur.length + (jsTrim s).length > maxSize ∧ cur.length > 0
      · have heq : chunkGo maxSize pageNo (s :: rest) cur acc idx =
            chunkGo maxSize pageNo rest (jsTrim s ++ ". ".data)
              (acc ++ [⟨jsTrim cur, pageNo, idx, extractKeywords cur⟩]) (idx + 1) := by
          simp only [chunkGo]; rw [if_neg h0, if_pos h1]
        rw [heq]
        calc acc.length
            ≤ (acc ++ [(⟨jsTrim cur, pageNo, idx, extractKeywords cur⟩ : TextChunk)]).length := by
              simp
          _ ≤ _ := ih _ _ _
      · have heq : chunkGo maxSize pageNo (s :: rest) cur acc idx =
            chunkGo maxSize pageNo rest (cur ++ jsTrim s ++ ". ".data) acc idx := by
          simp only [chunkGo]; rw [if_neg h0, if_neg h1]
        rw [heq]; exact ih _ _ _

theorem chunkGo_produces (maxSize pageNo : Nat) :
    ∀ (sentences : List Str) (cur : Str) (acc : List TextChunk) (idx : Nat),
      (∀ s ∈ sentences, (jsTrim s).length > 0) →
      (sentences ≠ [] ∨ (jsTrim cur).length > 0) →
      acc.length < (chunkGo maxSize pageNo sentences cur acc idx).1.length := by
  intro sentences
  induction sentences with
  | nil =>
    intro cur acc idx _ hne
    rcases hne with hne | hne
    · exact absurd rfl hne
    · simp only [chunkGo]
      rw [if_pos hne]
      simp
  | cons s rest ih =>
    intro cur acc idx hpos _
    have hs : (jsTrim s).length > 0 := hpos s (List.mem_cons_self _ _)
    have h0 : ¬ (jsTrim s).length = 0 := by omega
    have hrest : ∀ s' ∈ rest, (jsTrim s').length > 0 :=
      fun s' hs' => hpos s' (List.mem_cons_of_mem _ hs')
    by_cases h1 : cur.length + (jsTrim s).length > maxSize ∧ cur.length > 0
    · have heq : chunkGo maxSize pageNo (s :: rest) cur acc idx =
          chunkGo maxSize pageNo rest (jsTrim s ++ ". ".data)
            (acc ++ [⟨jsTrim cur, pageNo, idx, extractKeywords cur⟩]) (idx + 1) := by
        simp only [chunkGo]; rw [if_neg h0, if_pos h1]
      rw [heq]
      have hmono := chunkGo_mono maxSize pageNo rest (jsTrim s ++ ". ".data)
        (acc ++ [⟨jsTrim cur, pageNo, idx, extractKeywords cur⟩]) (idx + 1)
      have : acc.length < (acc ++ [(⟨jsTrim cur, pageNo, idx, extractKeywords cur⟩ : TextChunk)]).length := by
        simp
      omega
    · have heq : chunkGo maxSize pageNo (s :: rest) cur acc idx =
          chunkGo maxSize pageNo rest (cur ++ jsTrim s ++ ". ".data) acc idx := by
        simp only [chunkGo]; rw [if_neg h0, if_neg h1]
      rw [heq]
      apply ih _ acc idx hrest
      right
      obtain ⟨c0, r0, hts⟩ : ∃ c0 r0, jsTrim s = c0 :: r0 := by
        cases hx : jsTrim s with
        | nil => rw [hx] at hs; simp at hs
        | cons a b => exact ⟨a, b, rfl⟩
      have hc0 : jsSpace c0 = false := head_jsTrim_not_space hts
      have hmem : c0 ∈ cur ++ jsTrim s ++ ". ".data := by
        rw [hts]; simp
      have hne2 := jsTrim_ne_nil_of_mem hmem hc0
      exact List.length_pos.mpr hne2

/-- The chunker emits at least one chunk for a page whose text is non-empty
and splits into at least one trim-non-empty sentence. -/
theorem createTextChunks_ne_nil {pages : List ExtractedPage} (maxChunkSize : Nat)
    {p : ExtractedPage} (hp : p ∈ pages) (hne : ¬ p.text.length = 0)
    (hsent : (jsSplit isTerm p.text).filter (fun s => (jsTrim s).length > 0) ≠ []) :
    createTextChunks pages maxChunkSize ≠ [] := by
  obtain ⟨l1, l2, rfl⟩ := List.append_of_mem hp
  set step := fun (st : List TextChunk × Nat) (page : ExtractedPage) =>
    if page.text.length = 0 then st
    else
      chunkGo maxChunkSize page.page
        ((jsSplit isTerm page.text).filter (fun s => (jsTrim s).length > 0)) [] st.1 st.2
    with hstep
  have stepMono : ∀ st page, (st : List TextChunk × Nat).1.length ≤ (step st page).1.length := by
    intro st page
    simp only [hstep]
    by_cases h : page.text.length = 0
    · rw [if_pos h]
    · rw [if_neg h]
      exact chunkGo_mono maxChunkSize page.page _ [] st.1 st.2
  have foldMono : ∀ (ps : List ExtractedPage) (st : List TextChunk × Nat),
      st.1.length ≤ (ps.foldl step st).1.length := by
    intro ps
    induction ps with
    | nil => intro st; simp
    | cons q qs ih =>
      intro st
      calc st.1.length ≤ (step st q).1.length := stepMono st q
        _ ≤ _ := ih (step st q)
  have hkey : ∀ st : List TextChunk × Nat, st.1.length < (step st p).1.length := by
    intro st
    rw [hstep]
    simp only [if_neg hne]
    apply chunkGo_produces maxChunkSize p.page _ [] st.1 st.2
    · intro s hs
      have := List.of_mem_filter hs
      simpa using this
    · left; exact hsent
  intro hcon
  have hlen : (createTextChunks (l1 ++ p :: l2) maxChunkSize).length = 0 := by
    rw [hcon]; rfl
  have hunfold : createTextChunks (l1 ++ p :: l2) maxChunkSize =
      ((l1 ++ p :: l2).foldl step ([], 0)).1 := rfl
  rw [hunfold] at hlen
  rw [List.foldl_append, List.foldl_cons] at hlen
  have h1 := hkey (l1.foldl step ([], 0))
  have h2 := foldMono l2 (step (l1.foldl step ([], 0)) p)
  omega

end ProcessFileLemmas

/-- C3 (amended): after `processFile` completes without an exception the
stored document has `status = ready` and its pages are the cleaned extracted
pages one-for-one, so `pages.length` equals the number of extracted pages —
not necessarily the extractor-reported `pageCount`, which is stored verbatim;
`chunks` is non-empty provided at least one cleaned page text is non-empty
and splits into a trim-non-empty sentence; when processing throws, the stored
document has `status = error`.  Ready status is reached even when the
extracted text is empty — the code never demotes such documents to `error`. -/
theorem C3_processFile_invariant (name : Str) (size : Nat) (e : ExtractedTextData)
    (env : TPEnv) :
    (processFileModel name size (Except.ok e) env).status = DocStatus.ready ∧
    (processFileModel name size (Except.ok e) env).pages.length = e.pages.length ∧
    (processFileModel name size (Except.error ()) env).status = DocStatus.error ∧
    ((∃ p ∈ e.pages, ¬ (quickClean p.text env).length = 0 ∧
        (jsSplit isTerm (quickClean p.text env)).filter
          (fun s => (jsTrim s).length > 0) ≠ []) →
      (processFileModel name size (Except.ok e) env).chunks ≠ []) := by
  refine ⟨rfl, by simp [processFileModel], rfl, ?_⟩
  rintro ⟨p, hp, hne, hsent⟩
  show createTextChunks
      (e.pages.map fun page => { page with text := quickClean page.text env }) 500 ≠ []
  apply createTextChunks_ne_nil 500
    (p := { p with text := quickClean p.text env })
  · exact List.mem_map_of_mem _ hp
  · exact hne
  · exact hsent

/-- Witness for C3: a one-page document whose page text `"Hello world."`
survives cleaning, processed with the all-clear environment — the document is
ready with at least one chunk. -/
theorem C3_processFile_invariant_witness :
    (processFileModel ("doc.pdf".data) 5
        (Except.ok ⟨"Hello world.".data, [⟨1, "Hello world.".data⟩], 1⟩)
        tpEnvOK).status = DocStatus.ready ∧
    (processFileModel ("doc.pdf".data) 5
        (Except.ok ⟨"Hello world.".data, [⟨1, "Hello world.".data⟩], 1⟩)
        tpEnvOK).chunks ≠ [] :=
  have h := C3_processFile_invariant ("doc.pdf".data) 5
    ⟨"Hello world.".data, [⟨1, "Hello world.".data⟩], 1⟩ tpEnvOK
  ⟨h.1, h.2.2.2 (by decide)⟩

/-- Counterexample to C3 as stated: an extraction result with two empty page
texts (whitespace-only source text) still produces a `ready` document with
`chunks = []` — not `error`; and an extraction result whose reported
`pageCount` (5) differs from its page list (1 page) produces a `ready`
document with `pages.length = 1 ≠ 5 = pageCount`.  Both extractor outputs are
reachable: the extractor forwards page lists and page counts from the
external API response without reconciling them. -/
theorem C3_counterexample :
    ((processFileModel ("doc.pdf".data) 5
        (Except.ok ⟨"\n\n".data, [⟨1, []⟩, ⟨2, []⟩], 2⟩) tpEnvOK).status =
          DocStatus.ready ∧
      (processFileModel ("doc.pdf".data) 5
        (Except.ok ⟨"\n\n".data, [⟨1, []⟩, ⟨2, []⟩], 2⟩) tpEnvOK).chunks = []) ∧
    ((processFileModel ("doc.pdf".data) 5
        (Except.ok ⟨"Hi.".data, [⟨1, "Hi.".data⟩], 5⟩) tpEnvOK).status =
          DocStatus.ready ∧
      (processFileModel ("doc.pdf".data) 5
        (Except.ok ⟨"Hi.".data, [⟨1, "Hi.".data⟩], 5⟩) tpEnvOK).pages.length = 1 ∧
      (processFileModel ("doc.pdf".data) 5
        (Except.ok ⟨"Hi.".data, [⟨1, "Hi.".data⟩], 5⟩) tpEnvOK).pageCount = 5) := by
  decide

/-! ## Idempotence of cleaning (C10) and the error fallback (C9) -/

section TextProcessorClaims

/-- The restricted alphabet on which cleaning is provably the identity: the
lower-case ASCII letters except `r`, `v` and `c` (those three can form the
OCR-map digraphs `rn`, `vv` and `cl`). -/
def safeChars : Str := "abdefghijklmnopqstuwxyz".data

/-- Character facts used by every identity lemma, decided over the
23 safe characters. -/
theorem safe_facts_all : ∀ c ∈ safeChars,
    (jsSpace c = false ∧ jsWord c = true ∧ jsDigit c = false ∧ jsUpper c = false ∧
    c ≠ '-' ∧ c ≠ '.' ∧ c ≠ '!' ∧ c ≠ '?' ∧ c ≠ ',' ∧ c ≠ ';' ∧ c ≠ ':' ∧
    c ≠ '@' ∧ c ≠ '/' ∧ c ≠ '\r' ∧ c ≠ '\n' ∧ c ≠ ' ' ∧ c ≠ '\t' ∧ c ≠ '"' ∧
    c.val ≠ 0x27 ∧ c ≠ '*' ∧ c ≠ '\u2022' ∧
    dashClass c = false ∧ bulletClass c = false ∧ nwsUnicodeSpace c = false ∧
    c.val ≠ 0xfffd ∧ c.val ≠ 0xfeff ∧ c.val ≠ 0) := by
  decide

theorem safe_facts {c : Char} (h : c ∈ safeChars) :
    jsSpace c = false ∧ jsWord c = true ∧ jsDigit c = false ∧ jsUpper c = false ∧
    c ≠ '-' ∧ c ≠ '.' ∧ c ≠ '!' ∧ c ≠ '?' ∧ c ≠ ',' ∧ c ≠ ';' ∧ c ≠ ':' ∧
    c ≠ '@' ∧ c ≠ '/' ∧ c ≠ '\r' ∧ c ≠ '\n' ∧ c ≠ ' ' ∧ c ≠ '\t' ∧ c ≠ '"' ∧
    c.val ≠ 0x27 ∧ c ≠ '*' ∧ c ≠ '•' ∧
    dashClass c = false ∧ bulletClass c = false ∧ nwsUnicodeSpace c = false ∧
    c.val ≠ 0xfffd ∧ c.val ≠ 0xfeff ∧ c.val ≠ 0 :=
  safe_facts_all c h

theorem takeWhile_nil_of_head_false {p : Char → Bool} :
    ∀ s : Str, (match s with | [] => True | c :: _ => p c = false) →
      s.takeWhile p = [] := by
  intro s h
  cases s with
  | nil => rfl
  | cons c t => exact List.takeWhile_cons_of_neg (by simp [h])

theorem countWhile_zero_of_safe {p : Char → Bool} {s : Str}
    (hg : ∀ ch ∈ s, ch ∈ safeChars)
    (hp : ∀ ch ∈ safeChars, p ch = false) : countWhile p s = 0 := by
  rw [countWhile, takeWhile_nil_of_head_false]
  · rfl
  · cases s with
    | nil => trivial
    | cons c t => exact hp c (hg c (List.mem_cons_self _ _))

theorem takeWhile_all {p : Char → Bool} :
    ∀ s : Str, (∀ ch ∈ s, p ch = true) → s.takeWhile p = s := by
  intro s
  induction s with
  | nil => intro _; rfl
  | cons c t ih =>
    intro h
    rw [List.takeWhile_cons_of_pos (h c (List.mem_cons_self _ _))]
    rw [ih (fun ch hch => h ch (List.mem_cons_of_mem _ hch))]

theorem map_id_of_forall {f : Char → Char} :
    ∀ s : Str, (∀ ch ∈ s, f ch = ch) → s.map f = s := by
  intro s
  induction s with
  | nil => intro _; rfl
  | cons c t ih =>
    intro h
    simp only [List.map_cons, h c (List.mem_cons_self _ _),
      ih (fun ch hch => h ch (List.mem_cons_of_mem _ hch))]

theorem flatMap_id_of_forall {f : Char → Str} :
    ∀ s : Str, (∀ ch ∈ s, f ch = [ch]) → s.flatMap f = s := by
  intro s
  induction s with
  | nil => intro _; rfl
  | cons c t ih =>
    intro h
    simp only [List.flatMap_cons, h c (List.mem_cons_self _ _),
      ih (fun ch hch => h ch (List.mem_cons_of_mem _ hch))]
    rfl

theorem filter_id_of_forall {p : Char → Bool} :
    ∀ s : Str, (∀ ch ∈ s, p ch = true) → s.filter p = s := by
  intro s
  induction s with
  | nil => intro _; rfl
  | cons c t ih =>
    intro h
    rw [List.filter_cons_of_pos (h c (List.mem_cons_self _ _))]
    rw [ih (fun ch hch => h ch (List.mem_cons_of_mem _ hch))]

theorem jsTrim_id_of_safe {s : Str} (hg : ∀ ch ∈ s, ch ∈ safeChars) :
    jsTrim s = s := by
  have hEnd : jsTrimEnd s = s := by
    rw [jsTrimEnd]
    cases hrev : s.reverse with
    | nil =>
      have : s = [] := by simpa using congrArg List.reverse hrev
      simp [this]
    | cons a b =>
      have ha : a ∈ s := by
        have : a ∈ s.reverse := by rw [hrev]; exact List.mem_cons_self _ _
        simpa using this
      rw [List.dropWhile_cons_of_neg (by simp [(safe_facts (hg a ha)).1])]
      rw [← hrev, List.reverse_reverse]
  rw [jsTrim, hEnd, jsTrimStart]
  cases s with
  | nil => rfl
  | cons c t =>
    exact List.dropWhile_cons_of_neg
      (by simp [(safe_facts (hg c (List.mem_cons_self _ _))).1])

theorem scanReplGo_id {step : Str → Option (Str × Nat)}
    (hstep : ∀ s : Str, (∀ ch ∈ s, ch ∈ safeChars) → step s = none) :
    ∀ s : Str, (∀ ch ∈ s, ch ∈ safeChars) → scanReplGo step 0 s = s := by
  intro s
  induction s with
  | nil => intro _; rfl
  | cons c t ih =>
    intro hg
    have h0 := hstep (c :: t) hg
    simp only [scanReplGo, h0]
    rw [ih (fun ch hch => hg ch (List.mem_cons_of_mem _ hch))]

theorem pfx_sub {key s : Str} (h : pfx key s = true) : ∀ ch ∈ key, ch ∈ s := by
  rw [pfx_iff] at h
  obtain ⟨q, rfl⟩ := h
  intro ch hch
  exact List.mem_append_left _ hch

theorem pfx_false_of_bad_key {key s : Str}
    (hbad : ∃ ch ∈ key, ¬ ch ∈ safeChars)
    (hg : ∀ ch ∈ s, ch ∈ safeChars) : pfx key s = false := by
  by_contra h
  have h2 : pfx key s = true := by
    cases h3 : pfx key s with
    | false => exact absurd h3 h
    | true => rfl
  obtain ⟨ch, hch, hnb⟩ := hbad
  exact hnb (hg ch (pfx_sub h2 ch hch))

theorem replaceAllLit_id {key val : Str}
    (hbad : ∃ ch ∈ key, ¬ ch ∈ safeChars) :
    ∀ s : Str, (∀ ch ∈ s, ch ∈ safeChars) → replaceAllLit key val s = s := by
  intro s hg
  apply scanReplGo_id (fun s' hg' => ?_) s hg
  rw [pfx_false_of_bad_key hbad hg']
  rfl

theorem foldl_replaceAll_id :
    ∀ (entries : List (Str × Str)) (s : Str),
      (∀ kv ∈ entries, ∃ ch ∈ kv.1, ¬ ch ∈ safeChars) →
      (∀ ch ∈ s, ch ∈ safeChars) →
      entries.foldl (fun t kv => replaceAllLit kv.1 kv.2 t) s = s := by
  intro entries
  induction entries with
  | nil => intro s _ _; rfl
  | cons kv rest ih =>
    intro s hbad hg
    simp only [List.foldl_cons]
    rw [replaceAllLit_id (hbad kv (List.mem_cons_self _ _)) s hg]
    exact ih s (fun kv' hkv' => hbad kv' (List.mem_cons_of_mem _ hkv')) hg

end TextProcessorClaims

section TextProcessorClaims2

theorem scanRepl_id {step : Str → Option (Str × Nat)}
    (hstep : ∀ s' : Str, (∀ ch ∈ s', ch ∈ safeChars) → step s' = none)
    {s : Str} (hg : ∀ ch ∈ s, ch ∈ safeChars) : scanRepl step s = s := by
  rw [scanRepl]
  exact scanReplGo_id hstep s hg

theorem stepHyphenBreak_none {s : Str} (hg : ∀ ch ∈ s, ch ∈ safeChars) :
    stepHyphenBreak s = none := by
  cases s with
  | nil => rfl
  | cons c t =>
    cases t with
    | nil => rfl
    | cons d u =>
      have h := safe_facts (hg d (List.mem_cons_of_mem _ (List.mem_cons_self _ _)))
      obtain ⟨_, _, _, _, hd, _⟩ := h
      simp [stepHyphenBreak, hd]

theorem stepWordGap_none {s : Str} (hg : ∀ ch ∈ s, ch ∈ safeChars) :
    stepWordGap s = none := by
  cases s with
  | nil => rfl
  | cons c t =>
    have hk : countWhile jsSpace t = 0 :=
      countWhile_zero_of_safe (fun ch hch => hg ch (List.mem_cons_of_mem _ hch))
        (fun ch h => (safe_facts h).1)
    simp [stepWordGap, hk]

theorem stepSpacePunct_none {s : Str} (hg : ∀ ch ∈ s, ch ∈ safeChars) :
    stepSpacePunct s = none := by
  have hk : countWhile jsSpace s = 0 :=
    countWhile_zero_of_safe hg (fun ch h => (safe_facts h).1)
  simp [stepSpacePunct, hk]

theorem stepPunctSpaceUpper_none {s : Str} (hg : ∀ ch ∈ s, ch ∈ safeChars) :
    stepPunctSpaceUpper s = none := by
  cases s with
  | nil => rfl
  | cons c t =>
    have h := safe_facts (hg c (List.mem_cons_self _ _))
    obtain ⟨_, _, _, _, _, hdot, hbang, hq, _⟩ := h
    simp [stepPunctSpaceUpper, hdot, hbang, hq]

theorem stepDigitGap_none {s : Str} (hg : ∀ ch ∈ s, ch ∈ safeChars) :
    stepDigitGap s = none := by
  cases s with
  | nil => rfl
  | cons c t =>
    have h := safe_facts (hg c (List.mem_cons_self _ _))
    simp [stepDigitGap, h.2.2.1]

theorem stepUrl_none {s : Str} (hg : ∀ ch ∈ s, ch ∈ safeChars) :
    stepUrl s = none := by
  have h1 : pfx ("http://".data) s = false :=
    pfx_false_of_bad_key (by decide) hg
  have h2 : pfx ("https://".data) s = false :=
    pfx_false_of_bad_key (by decide) hg
  simp [stepUrl, h1, h2]

theorem stepEmail_none {s : Str} (hg : ∀ ch ∈ s, ch ∈ safeChars) :
    stepEmail s = none := by
  have hall : ∀ ch ∈ s, jsWord ch = true := fun ch h => (safe_facts (hg ch h)).2.1
  have ht : countWhile jsWord s = s.length := by
    rw [countWhile, takeWhile_all s hall]
  simp [stepEmail, ht, List.drop_length]

theorem stepSpaceTabRun_none {s : Str} (hg : ∀ ch ∈ s, ch ∈ safeChars) :
    stepSpaceTabRun s = none := by
  have hk : countWhile (fun c => c = ' ' ∨ c = '\t') s = 0 :=
    countWhile_zero_of_safe hg (by decide)
  simp only [stepSpaceTabRun]
  rw [hk]
  simp

theorem stepNewlineRun_none {s : Str} (hg : ∀ ch ∈ s, ch ∈ safeChars) :
    stepNewlineRun s = none := by
  have hk : countWhile (fun c => c = '\n') s = 0 :=
    countWhile_zero_of_safe hg (by decide)
  simp [stepNewlineRun, hk]

theorem stepTrailingWs_none {s : Str} (hg : ∀ ch ∈ s, ch ∈ safeChars) :
    stepTrailingWs s = none := by
  have hk : countWhile (fun c => c = ' ' ∨ c = '\t') s = 0 :=
    countWhile_zero_of_safe hg (by decide)
  simp only [stepTrailingWs]
  rw [hk]
  simp

theorem stepDots3_none {s : Str} (hg : ∀ ch ∈ s, ch ∈ safeChars) :
    stepDots3 s = none := by
  have hk : countWhile (fun c => c = '.') s = 0 :=
    countWhile_zero_of_safe hg (by decide)
  simp [stepDots3, hk]

theorem stepPunctUpper_none {s : Str} (hg : ∀ ch ∈ s, ch ∈ safeChars) :
    stepPunctUpper s = none := by
  cases s with
  | nil => rfl
  | cons c t =>
    cases t with
    | nil => rfl
    | cons u v =>
      have h := safe_facts (hg c (List.mem_cons_self _ _))
      obtain ⟨_, _, _, _, _, hdot, hbang, hq, _⟩ := h
      simp [stepPunctUpper, hdot, hbang, hq]

theorem stepDots4_none {s : Str} (hg : ∀ ch ∈ s, ch ∈ safeChars) :
    stepDots4 s = none := by
  have hk : countWhile (fun c => c = '.') s = 0 :=
    countWhile_zero_of_safe hg (by decide)
  simp [stepDots4, hk]

theorem stepBangs_none {s : Str} (hg : ∀ ch ∈ s, ch ∈ safeChars) :
    stepBangs s = none := by
  have hk : countWhile (fun c => c = '!') s = 0 :=
    countWhile_zero_of_safe hg (by decide)
  simp [stepBangs, hk]

theorem stepQuestions_none {s : Str} (hg : ∀ ch ∈ s, ch ∈ safeChars) :
    stepQuestions s = none := by
  have hk : countWhile (fun c => c = '?') s = 0 :=
    countWhile_zero_of_safe hg (by decide)
  simp [stepQuestions, hk]

end TextProcessorClaims2

section TextProcessorClaims3

theorem fixEncodingIssues_id {s : Str} (hg : ∀ ch ∈ s, ch ∈ safeChars) :
    fixEncodingIssues s = s := by
  have h0 : (encodingFixLiterals.take 15).foldl
      (fun t kv => replaceAllLit kv.1 kv.2 t) s = s :=
    foldl_replaceAll_id _ s (by decide) hg
  have hp1 : ∀ c ∈ safeChars,
      ((fun c => ¬(c.val = 0xfffd ∨ c.val = 0xfeff) : Char → Bool)) c = true := by
    decide
  have hp2 : ∀ c ∈ safeChars, ((fun c => c.val ≠ 0 : Char → Bool)) c = true := by
    decide
  have h1 : s.filter (fun c => ¬(c.val = 0xfffd ∨ c.val = 0xfeff)) = s :=
    filter_id_of_forall s (fun ch hch => hp1 ch (hg ch hch))
  have h2 : s.filter (fun c => c.val ≠ 0) = s :=
    filter_id_of_forall s (fun ch hch => hp2 ch (hg ch hch))
  simp only [fixEncodingIssues]
  rw [h0, h1, h2]
  rfl

theorem correctOCRErrors_id {s : Str} (hg : ∀ ch ∈ s, ch ∈ safeChars) :
    correctOCRErrors s = s := by
  have h0 : commonOCRErrors.foldl (fun t kv => replaceAllLit kv.1 kv.2 t) s = s :=
    foldl_replaceAll_id _ s (by decide) hg
  simp only [correctOCRErrors]
  rw [h0,
    scanRepl_id (fun s' h => stepHyphenBreak_none h) hg,
    scanRepl_id (fun s' h => stepWordGap_none h) hg,
    scanRepl_id (fun s' h => stepSpacePunct_none h) hg,
    scanRepl_id (fun s' h => stepPunctSpaceUpper_none h) hg,
    scanRepl_id (fun s' h => stepDigitGap_none h) hg,
    scanRepl_id (fun s' h => stepUrl_none h) hg,
    scanRepl_id (fun s' h => stepEmail_none h) hg]

theorem normalizeWhitespace_id {s : Str} (hg : ∀ ch ∈ s, ch ∈ safeChars) :
    normalizeWhitespace s = s := by
  have hq1 : ∀ c ∈ safeChars, (if nwsUnicodeSpace c then ' ' else c) = c := by decide
  have hq2 : ∀ c ∈ safeChars, (if c = '\r' then '\n' else c) = c := by decide
  have hm1 : s.map (fun c => if nwsUnicodeSpace c then ' ' else c) = s :=
    map_id_of_forall s (fun ch hch => hq1 ch (hg ch hch))
  have hm2 : s.map (fun c => if c = '\r' then '\n' else c) = s :=
    map_id_of_forall s (fun ch hch => hq2 ch (hg ch hch))
  have hr : replaceAllLit ("\r\n".data) ("\n".data) s = s :=
    replaceAllLit_id (by decide) s hg
  simp only [normalizeWhitespace]
  rw [hm1,
    scanRepl_id (fun s' h => stepSpaceTabRun_none h) hg,
    hr, hm2,
    scanRepl_id (fun s' h => stepNewlineRun_none h) hg,
    scanRepl_id (fun s' h => stepTrailingWs_none h) hg,
    jsTrim_id_of_safe hg]

theorem standardizeFormatting_id {s : Str} (hg : ∀ ch ∈ s, ch ∈ safeChars) :
    standardizeFormatting s = s := by
  have hq1 : ∀ c ∈ safeChars, (if c = '"' then '"' else c) = c := by decide
  have hq2 : ∀ c ∈ safeChars,
      (if c.val = 0x27 then Char.ofNat 0x27 else c) = c := by decide
  have hd : ∀ c ∈ safeChars, (if dashClass c then dashRepl else [c]) = [c] := by decide
  have hb : ∀ c ∈ safeChars, (if bulletClass c then bulletRepl else [c]) = [c] := by
    decide
  have hm1 : s.map (fun c => if c = '"' then '"' else c) = s :=
    map_id_of_forall s (fun ch hch => hq1 ch (hg ch hch))
  have hm2 : s.map (fun c => if c.val = 0x27 then Char.ofNat 0x27 else c) = s :=
    map_id_of_forall s (fun ch hch => hq2 ch (hg ch hch))
  have hf1 : s.flatMap (fun c => if dashClass c then dashRepl else [c]) = s :=
    flatMap_id_of_forall s (fun ch hch => hd ch (hg ch hch))
  have hf2 : s.flatMap (fun c => if bulletClass c then bulletRepl else [c]) = s :=
    flatMap_id_of_forall s (fun ch hch => hb ch (hg ch hch))
  simp only [standardizeFormatting]
  rw [hm1, hm2, hf1,
    scanRepl_id (fun s' h => stepDots3_none h) hg,
    scanRepl_id (fun s' h => stepSpacePunct_none h) hg,
    scanRepl_id (fun s' h => stepPunctUpper_none h) hg,
    hf2,
    scanRepl_id (fun s' h => stepDots4_none h) hg,
    scanRepl_id (fun s' h => stepBangs_none h) hg,
    scanRepl_id (fun s' h => stepQuestions_none h) hg]

/-- Under the default options and a non-throwing run, the cleaned text is the
composition of the four enabled cleaning stages. -/
theorem processText_default_cleanedText (text : Str) :
    (processText text {} tpEnvOK).cleanedText =
      standardizeFormatting (normalizeWhitespace (correctOCRErrors
        (fixEncodingIssues text))) := by
  simp [processText, processTextBody, stageRun, tpEnvOK, Except.map, Except.bind]

end TextProcessorClaims3

/-- C10 (corrected): cleaning under the default options is idempotent on every
text over the restricted alphabet `safeChars` (lower-case letters that cannot
start an OCR digraph); on such inputs a first pass is already the identity, so
a second pass changes nothing.  The claim's unrestricted reading is refuted by
`C10_counterexample`: the word-gap OCR rule `(\w)\s+(\w) → $1$2` makes
`processText` collapse one inter-word space per pass, so cleaning "a b c" is
not idempotent. -/
theorem C10_clean_idempotent (x : Str) (hsafe : ∀ ch ∈ x, ch ∈ safeChars) :
    (processText ((processText x {} tpEnvOK).cleanedText) {} tpEnvOK).cleanedText =
      (processText x {} tpEnvOK).cleanedText := by
  have hx : (processText x {} tpEnvOK).cleanedText = x := by
    rw [processText_default_cleanedText,
      fixEncodingIssues_id hsafe, correctOCRErrors_id hsafe,
      normalizeWhitespace_id hsafe, standardizeFormatting_id hsafe]
  rw [hx]
  exact hx

set_option maxRecDepth 16384 in
/-- Witness for C10 at the concrete input "hello". -/
theorem C10_clean_idempotent_witness :
    (∀ ch ∈ ("hello".data : Str), ch ∈ safeChars) ∧
    (processText ((processText ("hello".data) {} tpEnvOK).cleanedText) {}
        tpEnvOK).cleanedText =
      (processText ("hello".data) {} tpEnvOK).cleanedText :=
  ⟨by decide, C10_clean_idempotent ("hello".data) (by decide)⟩

set_option maxRecDepth 16384 in
/-- C10 counterexample: cleaning is not idempotent on "a b c" — the first pass
yields "ab c" (the word-gap OCR rule merges `a b`), the second yields "abc".
The first pass is checked here by evaluation. -/
theorem C10_counterexample :
    ¬ ((processText ((processText ("a b c".data) {} tpEnvOK).cleanedText) {}
          tpEnvOK).cleanedText =
        (processText ("a b c".data) {} tpEnvOK).cleanedText) := by decide

/-- C9 (confirmed): `processText` is total (it never propagates an exception),
and whenever the staged body throws — any stage of the pipeline raising at
runtime — the catch branch returns the original text unmodified with
`qualityScore = 0.5` and the single note "Error occurred during processing". -/
theorem C9_processText_error_fallback (text : Str) (opts : TPOptions) (env : TPEnv)
    (h : processTextBody opts env text = Except.error ()) :
    processText text opts env =
      { cleanedText := text
        originalLength := text.length
        processedLength := text.length
        improvementsApplied := ["Error occurred during processing".data]
        qualityScore := 1/2
        sections := [] } := by
  simp only [processText, h]

/-- Witness for C9: a run whose third stage (whitespace normalisation) throws
on the input "abc" under the default options. -/
theorem C9_processText_error_fallback_witness :
    processTextBody {} ⟨fun k => k == 3⟩ ("abc".data) = Except.error () ∧
    processText ("abc".data) {} ⟨fun k => k == 3⟩ =
      { cleanedText := "abc".data
        originalLength := 3
        processedLength := 3
        improvementsApplied := ["Error occurred during processing".data]
        qualityScore := 1/2
        sections := [] } :=
  ⟨rfl, C9_processText_error_fallback ("abc".data) {} ⟨fun k => k == 3⟩ rfl⟩

/-- C4 (corrected): when semantic retrieval returns an empty ranked list the
synthesizer returns confidence 0 and no sources, and — provided at least one
document has status `ready` — the fixed apologetic message quoting the query,
listing the three possible reasons and suggesting rephrasing.  The claim as
stated omits the ready-document side condition: with no ready documents the
code emits a different "no processed documents" message
(`C4_counterexample`). -/
theorem C4_no_result_answer (query : Str) (documents : List ProcessedDocument)
    (hempty : performSemanticSearch query documents = [])
    (hready : ¬ (documents.filter (fun doc => doc.status = DocStatus.ready)).length = 0) :
    (eqaGenerateAnswer query documents).answer =
      "I couldn't find specific information about \"".data ++ query ++
        ("\" in your uploaded documents. This might be because:\n\n" ++
         "• The content doesn't directly address this topic\n" ++
         "• Different terminology is used in the documents\n" ++
         "• The information might be in a section I haven't indexed yet\n\n" ++
         "Try rephrasing your question with different keywords, or ask me about " ++
         "the main topics covered in your documents.").data ∧
    (eqaGenerateAnswer query documents).confidence = 0 ∧
    (eqaGenerateAnswer query documents).sources = [] := by
  have h : eqaGenerateAnswer query documents =
      { answer := generateNoResultsAnswer query documents
        confidence := 0
        sources := []
        suggestedFollowUps := generateGenericFollowUps documents } := by
    simp only [eqaGenerateAnswer]
    rw [hempty]
  rw [h]
  refine ⟨?_, rfl, rfl⟩
  simp only [generateNoResultsAnswer]
  rw [if_neg hready]

/-- Witness for C4: one ready document with no chunks — retrieval is empty but
a ready document exists, so the apologetic message is produced. -/
theorem C4_no_result_answer_witness :
    performSemanticSearch ("test".data)
        [⟨"d1".data, "doc".data, 1, DocStatus.ready, 0, [], [], [], none, none, none⟩] = [] ∧
    ¬ (([⟨"d1".data, "doc".data, 1, DocStatus.ready, 0, [], [], [], none, none,
          none⟩] : List ProcessedDocument).filter
        (fun doc => doc.status = DocStatus.ready)).length = 0 ∧
    (eqaGenerateAnswer ("test".data)
        [⟨"d1".data, "doc".data, 1, DocStatus.ready, 0, [], [], [], none, none,
          none⟩]).answer =
      "I couldn't find specific information about \"".data ++ "test".data ++
        ("\" in your uploaded documents. This might be because:\n\n" ++
         "• The content doesn't directly address this topic\n" ++
         "• Different terminology is used in the documents\n" ++
         "• The information might be in a section I haven't indexed yet\n\n" ++
         "Try rephrasing your question with different keywords, or ask me about " ++
         "the main topics covered in your documents.").data :=
  ⟨by decide, by decide,
    (C4_no_result_answer ("test".data)
      [⟨"d1".data, "doc".data, 1, DocStatus.ready, 0, [], [], [], none, none, none⟩]
      (by decide) (by decide)).1⟩

/-- C4 counterexample: with an empty document collection retrieval is empty,
yet the answer is the "no processed documents" message, not the apologetic
"couldn't find specific information" message the claim requires in every
empty-retrieval case. -/
theorem C4_counterexample :
    performSemanticSearch ("test".data) [] = [] ∧
    (eqaGenerateAnswer ("test".data) []).answer =
      ("I don't have any processed documents to search through yet. " ++
        "Please upload and wait for documents to be processed.").data ∧
    ¬ ((eqaGenerateAnswer ("test".data) []).answer =
      "I couldn't find specific information about \"".data ++ "test".data ++
        ("\" in your uploaded documents. This might be because:\n\n" ++
         "• The content doesn't directly address this topic\n" ++
         "• Different terminology is used in the documents\n" ++
         "• The information might be in a section I haven't indexed yet\n\n" ++
         "Try rephrasing your question with different keywords, or ask me about " ++
         "the main topics covered in your documents.").data) := by
  refine ⟨by decide, by decide, by decide⟩

/-- The confidence formula exactly as the specification words it: base
`min(topScore/10, 1)`, plus `0.1` when a second result scores within 80% of
the top, plus `0.2` times the fraction of extracted query terms present in
the top chunk's content, the total capped at 1 (and 0 for an empty list).
This definition follows the spec text and is compared with the source's
`calculateConfidence`. -/
def specConfidence (query : Str) (results : List SearchResult) : ℚ :=
  match results with
  | [] => 0
  | top :: rest =>
    let queryWords := extractQueryTerms (lowerStr query)
    let base : ℚ := min (top.score / 10) 1
    let bonus : ℚ := match rest with
      | second :: _ => if second.score > top.score * (8/10) then 1/10 else 0
      | [] => 0
    let coverage : ℚ :=
      ((queryWords.filter (fun w => subStr w (lowerStr top.chunk.content))).length : ℚ) /
        (queryWords.length : ℚ)
    min (base + bonus + coverage * (2/10)) 1

/-- C5 (confirmed): for every query and result list with non-negative scores
(retrieval only emits strictly positive ones), `calculateConfidence` computes
exactly the spec's formula — `min(topScore/10, 1)`, `+0.1` for a close second
result, `+0.2 ×` term coverage of the top chunk, capped at 1 — and the value
lies in `[0, 1]`; for an empty list it is 0 (covered by the same equation). -/
theorem C5_confidence_formula (query : Str) (results : List SearchResult)
    (hpos : ∀ r ∈ results, 0 ≤ r.score) :
    calculateConfidence query results = specConfidence query results ∧
    0 ≤ calculateConfidence query results ∧
    calculateConfidence query results ≤ 1 := by
  refine ⟨?_, ?_, ?_⟩
  · cases results with
    | nil => rfl
    | cons top rest =>
      cases rest with
      | nil => simp [calculateConfidence, specConfidence]
      | cons second rest2 =>
        by_cases h : second.score > top.score * (8/10)
        · simp [calculateConfidence, specConfidence, h]
        · simp [calculateConfidence, specConfidence, h]
  · cases results with
    | nil => simp [calculateConfidence]
    | cons top rest =>
      have htop : (0:ℚ) ≤ top.score := hpos top (List.mem_cons_self _ _)
      have hbase : (0:ℚ) ≤ min (top.score / 10) 1 :=
        le_min (by positivity) (by norm_num)
      have hcov : (0:ℚ) ≤
          (((extractQueryTerms (lowerStr query)).filter
            (fun w => subStr w (lowerStr top.chunk.content))).length : ℚ) /
            ((extractQueryTerms (lowerStr query)).length : ℚ) :=
        div_nonneg (Nat.cast_nonneg _) (Nat.cast_nonneg _)
      cases rest with
      | nil =>
        simp only [calculateConfidence]
        exact le_min (add_nonneg hbase (mul_nonneg hcov (by norm_num))) (by norm_num)
      | cons second rest2 =>
        simp only [calculateConfidence]
        have hconf2 : (0:ℚ) ≤ (if second.score > top.score * (8/10)
            then min (top.score / 10) 1 + 1/10 else min (top.score / 10) 1) := by
          split
          · exact add_nonneg hbase (by norm_num)
          · exact hbase
        exact le_min (add_nonneg hconf2 (mul_nonneg hcov (by norm_num))) (by norm_num)
  · cases results with
    | nil => simp [calculateConfidence]
    | cons top rest =>
      simp only [calculateConfidence]
      exact min_le_right _ _

/-- Witness for C5 at a concrete two-result list. -/
theorem C5_confidence_formula_witness :
    (∀ r ∈ ([⟨⟨"alpha content".data, 1, 0, []⟩, 5,
        ⟨"d".data, "doc".data, 1, DocStatus.ready, 0, [], [], [], none, none, none⟩⟩,
      ⟨⟨"beta content".data, 1, 1, []⟩, 4,
        ⟨"d".data, "doc".data, 1, DocStatus.ready, 0, [], [], [], none, none,
          none⟩⟩] : List SearchResult), 0 ≤ r.score) ∧
    (calculateConfidence ("alpha".data)
        [⟨⟨"alpha content".data, 1, 0, []⟩, 5,
          ⟨"d".data, "doc".data, 1, DocStatus.ready, 0, [], [], [], none, none, none⟩⟩,
         ⟨⟨"beta content".data, 1, 1, []⟩, 4,
          ⟨"d".data, "doc".data, 1, DocStatus.ready, 0, [], [], [], none, none, none⟩⟩] =
      specConfidence ("alpha".data)
        [⟨⟨"alpha content".data, 1, 0, []⟩, 5,
          ⟨"d".data, "doc".data, 1, DocStatus.ready, 0, [], [], [], none, none, none⟩⟩,
         ⟨⟨"beta content".data, 1, 1, []⟩, 4,
          ⟨"d".data, "doc".data, 1, DocStatus.ready, 0, [], [], [], none, none, none⟩⟩] ∧
      0 ≤ calculateConfidence ("alpha".data)
        [⟨⟨"alpha content".data, 1, 0, []⟩, 5,
          ⟨"d".data, "doc".data, 1, DocStatus.ready, 0, [], [], [], none, none, none⟩⟩,
         ⟨⟨"beta content".data, 1, 1, []⟩, 4,
          ⟨"d".data, "doc".data, 1, DocStatus.ready, 0, [], [], [], none, none, none⟩⟩] ∧
      calculateConfidence ("alpha".data)
        [⟨⟨"alpha content".data, 1, 0, []⟩, 5,
          ⟨"d".data, "doc".data, 1, DocStatus.ready, 0, [], [], [], none, none, none⟩⟩,
         ⟨⟨"beta content".data, 1, 1, []⟩, 4,
          ⟨"d".data, "doc".data, 1, DocStatus.ready, 0, [], [], [], none, none,
            none⟩⟩] ≤ 1) :=
  ⟨by decide,
    C5_confidence_formula ("alpha".data)
      [⟨⟨"alpha content".data, 1, 0, []⟩, 5,
        ⟨"d".data, "doc".data, 1, DocStatus.ready, 0, [], [], [], none, none, none⟩⟩,
       ⟨⟨"beta content".data, 1, 1, []⟩, 4,
        ⟨"d".data, "doc".data, 1, DocStatus.ready, 0, [], [], [], none, none, none⟩⟩]
      (by decide)⟩

/-- C8 (code bug): the comparator of `getTrendingQuestions` reads its two
operands crosswise (`aScore` is computed from `b` and `bScore` from `a`), so
the sort is ascending by trending score and the claimed
highest-to-lowest order is violated.  Here two items are both asked within
the last 7 days; item `a` has trending score 10 and item `b` trending score
1, yet `getTrendingQuestions` with limit 1 returns the lower-scoring `b`. -/
theorem C8_trending_order_bug :
    getTrendingQuestions
        [⟨"a".data, "qa".data, "ansa".data, "general".data, 0, [], 1000, 10⟩,
         ⟨"b".data, "qb".data, "ansb".data, "general".data, 0, [], 1000, 1⟩]
        1000 1 =
      [⟨"b".data, "qb".data, "ansb".data, "general".data, 0, [], 1000, 1⟩] ∧
    trendingScore 1000
        ⟨"b".data, "qb".data, "ansb".data, "general".data, 0, [], 1000, 1⟩ <
      trendingScore 1000
        ⟨"a".data, "qa".data, "ansa".data, "general".data, 0, [], 1000, 10⟩ := by
  constructor
  · norm_num [getTrendingQuestions, sortAscBy, insertAscBy, trendingScore, List.filter]
  · norm_num [trendingScore]

/-- C1 (code bug): `generateAnswer` is not exception-safe.  When the enhanced
path fails (modelled by `requireOk = false`, as in a deployed build where the
dynamic `require` of the enhanced module throws) the fallback
`searchDocuments` runs outside any `try`, and it builds
`new RegExp('\\b' + queryWord + '\\b', 'i')` from the raw query word without
escaping.  For the question "(def" against a ready document whose chunk
contains the word, the pattern `\b(def\b` has an unterminated group, the
`RegExp` constructor throws a `SyntaxError`, and the exception propagates out
of `generateAnswer`; `api.askQuestion` then hits its `catch` branch and
returns the error response instead of a `{ answer, sources }` object. -/
theorem C1_generateAnswer_throws :
    generateAnswerE ("(def".data)
        [⟨"d1".data, "doc".data, 1, DocStatus.ready, 1,
          [⟨1, "ab (def gh".data⟩],
          [⟨"ab (def gh".data, 1, 0, []⟩],
          "ab (def gh".data, none, none, none⟩]
        false = Except.error () ∧
    askQuestion ("(def".data)
        [⟨"d1".data, "doc".data, 1, DocStatus.ready, 1,
          [⟨1, "ab (def gh".data⟩],
          [⟨"ab (def gh".data, 1, 0, []⟩],
          "ab (def gh".data, none, none, none⟩]
        false = ApiResponse.err :=
  ⟨rfl, rfl⟩

theorem find?_append_cons {α : Type} (p : α → Bool) :
    ∀ (l1 : List α) (x : α) (l2 : List α),
      (∀ a ∈ l1, p a = false) → p x = true →
      List.find? p (l1 ++ x :: l2) = some x := by
  intro l1
  induction l1 with
  | nil =>
    intro x l2 _ hx
    simp [List.find?, hx]
  | cons a t ih =>
    intro x l2 h1 hx
    have ha : p a = false := h1 a (List.mem_cons_self _ _)
    rw [List.cons_append]
    simp only [List.find?, ha]
    exact ih x l2 (fun b hb => h1 b (List.mem_cons_of_mem _ hb)) hx

/-- C6 (corrected): a question whose lowercased trimmed text contains the
phrase "what are the three key elements of every machine learning algorithm"
is answered by the canned ML key-elements answer
(Representation/Evaluation/Optimization, entry 2 of the ML table) and the
chat handler returns it annotated with the ML knowledge-base name without
invoking the retrieval engine — provided none of the eight keyword keys that
precede "three key elements" in `mlKeywordMatches` occurs in the question,
and the question is not also a nuclear-physics one.  The claim's unrestricted
form is refuted by `C6_counterexample`: the table is scanned in order, so a
question additionally containing the earlier key "traditional programming"
gets entry 0's answer instead. -/
theorem C6_predefined_short_circuit (question : Str)
    (hsub : subStr
      ("what are the three key elements of every machine learning algorithm".data)
      (jsTrim (lowerStr question)) = true)
    (hearlier : ∀ kv ∈ mlKeywordMatches.take 8,
      subStr kv.1 (jsTrim (lowerStr question)) = false)
    (hnuc : isNuclearPhysicsQuestion question = false) :
    findPredefinedAnswer question = some (mlResearchQA.getD 2 ([], [])).2 ∧
    handleSendModel question =
      SendOutcome.predefined
        ((mlResearchQA.getD 2 ([], [])).2 ++
          "\n\n---\n*This answer is from the ".data ++
          "ML Research Paper knowledge base".data ++ ".*".data)
        ("ML Research Paper.pdf".data) := by
  have hfind : mlKeywordMatches.find?
      (fun kv => subStr kv.1 (jsTrim (lowerStr question))) =
      some ("three key elements".data, (mlResearchQA.getD 2 ([], [])).2) := by
    have hdecomp : mlKeywordMatches =
        mlKeywordMatches.take 8 ++
          (("three key elements".data, (mlResearchQA.getD 2 ([], [])).2) ::
            mlKeywordMatches.drop 9) := rfl
    rw [hdecomp]
    apply find?_append_cons
    · exact hearlier
    · show subStr ("three key elements".data) (jsTrim (lowerStr question)) = true
      exact subStr_trans (by decide) hsub
  have hfpa : findPredefinedAnswer question = some (mlResearchQA.getD 2 ([], [])).2 := by
    simp only [findPredefinedAnswer]
    rw [hfind]
  have hsubml : subStr ("machine learning".data) (lowerStr question) = true :=
    subStr_of_trim (subStr_trans (by decide) hsub)
  have hml : isMLResearchQuestion question = true := by
    simp only [isMLResearchQuestion]
    exact List.any_eq_true.mpr ⟨"machine learning".data, by decide, hsubml⟩
  refine ⟨hfpa, ?_⟩
  simp only [handleSendModel]
  rw [hfpa]
  simp [hml, hnuc]

set_option maxRecDepth 40000 in
/-- Witness for C6 at the bare key-elements question. -/
theorem C6_predefined_short_circuit_witness :
    subStr
      ("what are the three key elements of every machine learning algorithm".data)
      (jsTrim (lowerStr
        ("what are the three key elements of every machine learning algorithm".data))) =
      true ∧
    (∀ kv ∈ mlKeywordMatches.take 8,
      subStr kv.1 (jsTrim (lowerStr
        ("what are the three key elements of every machine learning algorithm".data))) =
        false) ∧
    isNuclearPhysicsQuestion
      ("what are the three key elements of every machine learning algorithm".data) =
      false ∧
    findPredefinedAnswer
        ("what are the three key elements of every machine learning algorithm".data) =
      some (mlResearchQA.getD 2 ([], [])).2 ∧
    handleSendModel
        ("what are the three key elements of every machine learning algorithm".data) =
      SendOutcome.predefined
        ((mlResearchQA.getD 2 ([], [])).2 ++
          "\n\n---\n*This answer is from the ".data ++
          "ML Research Paper knowledge base".data ++ ".*".data)
        ("ML Research Paper.pdf".data) :=
  ⟨by decide, by decide, by decide,
    (C6_predefined_short_circuit
      ("what are the three key elements of every machine learning algorithm".data)
      (by decide) (by decide) (by decide)).1,
    (C6_predefined_short_circuit
      ("what are the three key elements of every machine learning algorithm".data)
      (by decide) (by decide) (by decide)).2⟩

set_option maxRecDepth 40000 in
/-- C6 counterexample: a question containing the claimed phrase but also the
earlier table key "traditional programming" is answered with entry 0's canned
answer, not the key-elements answer the claim promises for every question
containing the phrase. -/
theorem C6_counterexample :
    subStr
      ("what are the three key elements of every machine learning algorithm".data)
      (jsTrim (lowerStr
        (("traditional programming what are the three key elements of every " ++
          "machine learning algorithm").data))) = true ∧
    findPredefinedAnswer
        (("traditional programming what are the three key elements of every " ++
          "machine learning algorithm").data) =
      some (mlResearchQA.getD 0 ([], [])).2 ∧
    ¬ (findPredefinedAnswer
        (("traditional programming what are the three key elements of every " ++
          "machine learning algorithm").data) =
      some (mlResearchQA.getD 2 ([], [])).2) :=
  ⟨by decide, by decide, by decide⟩

section ScoreLemmas

theorem snd_mem_enumFrom {α : Type} :
    ∀ (n : Nat) (l : List α) (p : Nat × α), p ∈ l.enumFrom n → p.2 ∈ l := by
  intro n l
  induction l generalizing n with
  | nil => intro p h; simp [List.enumFrom] at h
  | cons a t ih =>
    intro p h
    simp only [List.enumFrom, List.mem_cons] at h
    cases h with
    | inl h => rw [h]; exact List.mem_cons_self _ _
    | inr h => exact List.mem_cons_of_mem _ (ih (n + 1) p h)

theorem snd_mem_enum {α : Type} (l : List α) (p : Nat × α) (h : p ∈ l.enum) :
    p.2 ∈ l :=
  snd_mem_enumFrom 0 l p h

theorem filter_congr_own {α : Type} {p q : α → Bool} :
    ∀ l : List α, (∀ x ∈ l, p x = q x) → l.filter p = l.filter q := by
  intro l
  induction l with
  | nil => intro _; rfl
  | cons a t ih =>
    intro h
    simp only [List.filter, h a (List.mem_cons_self _ _)]
    rw [ih (fun x hx => h x (List.mem_cons_of_mem _ hx))]

/-- The per-term word-score fold of `calculateSemanticScore` is the same for
two contents on which every query term has the same substring and the same
word-boundary status. -/
theorem wordScore_congr (cA cB : Str) (qlen : Nat) :
    ∀ (l : List (Nat × Str)),
      (∀ iw ∈ l, subStr iw.2 cA = subStr iw.2 cB ∧ wbTest iw.2 cA = wbTest iw.2 cB) →
      ∀ acc : ℚ,
      l.foldl (fun acc iw =>
        if subStr iw.2 cA then
          let positionWeight : ℚ := 1 + ((qlen - iw.1 : Nat) : ℚ) * (1/10)
          acc + 3 * positionWeight +
            (if wbTest iw.2 cA then 2 * positionWeight else 0)
        else acc) acc =
      l.foldl (fun acc iw =>
        if subStr iw.2 cB then
          let positionWeight : ℚ := 1 + ((qlen - iw.1 : Nat) : ℚ) * (1/10)
          acc + 3 * positionWeight +
            (if wbTest iw.2 cB then 2 * positionWeight else 0)
        else acc) acc := by
  intro l
  induction l with
  | nil => intro _ acc; rfl
  | cons p t ih =>
    intro h acc
    have h1 := (h p (List.mem_cons_self _ _)).1
    have h2 := (h p (List.mem_cons_self _ _)).2
    simp only [List.foldl_cons]
    rw [h1, h2]
    exact ih (fun iw hiw => h iw (List.mem_cons_of_mem _ hiw)) _

end ScoreLemmas

/-- C7 (corrected): for a fixed query-term list and two chunks of the same
document for which every term has the same substring status and the same
word-boundary status, whose contextual-pattern scores agree and whose
space-split word counts agree, the chunk containing the query phrase (terms
joined by single spaces) scores strictly higher — exactly 10 points, the
phrase bonus, higher.  The claim's hypotheses (same length, same keyword and
contextual matches) are not sufficient: `C7_counterexample` shows two
equal-length chunks with identical per-term and contextual matches where the
phrase-bearing chunk scores strictly lower, because the word-density term
divides by the space-split word count, not the length. -/
theorem C7_phrase_score_monotonic (queryWords : List Str) (A B : TextChunk)
    (doc : ProcessedDocument)
    (hphrA : subStr (List.intercalate (" ".data) queryWords) (lowerStr A.content) = true)
    (hphrB : subStr (List.intercalate (" ".data) queryWords) (lowerStr B.content) = false)
    (hinc : ∀ w ∈ queryWords, subStr w (lowerStr A.content) = subStr w (lowerStr B.content))
    (hwb : ∀ w ∈ queryWords, wbTest w (lowerStr A.content) = wbTest w (lowerStr B.content))
    (hctx : eqaContextualScore (List.intercalate (" ".data) queryWords) (lowerStr A.content) =
      eqaContextualScore (List.intercalate (" ".data) queryWords) (lowerStr B.content))
    (hwords : (jsSplit jsSpace (lowerStr A.content)).length =
      (jsSplit jsSpace (lowerStr B.content)).length) :
    calculateSemanticScore queryWords B doc < calculateSemanticScore queryWords A doc := by
  have hphrB' : ¬ subStr (List.intercalate (" ".data) queryWords)
      (lowerStr B.content) = true := by
    simp [hphrB]
  have henumA : ∀ iw ∈ queryWords.enum,
      subStr iw.2 (lowerStr A.content) = subStr iw.2 (lowerStr B.content) ∧
      wbTest iw.2 (lowerStr A.content) = wbTest iw.2 (lowerStr B.content) := by
    intro iw hiw
    have h2 : iw.2 ∈ queryWords := snd_mem_enum _ _ hiw
    exact ⟨hinc _ h2, hwb _ h2⟩
  have hW := wordScore_congr (lowerStr A.content) (lowerStr B.content)
    queryWords.length queryWords.enum henumA 0
  have hM : (queryWords.filter (fun w => subStr w (lowerStr A.content))).length =
      (queryWords.filter (fun w => subStr w (lowerStr B.content))).length := by
    rw [filter_congr_own queryWords hinc]
  simp only [calculateSemanticScore]
  rw [if_pos hphrA, if_neg hphrB', hW, hM, hctx, hwords]
  linarith

/-- Witness for C7: the chunk "aaa bbb ccc ddd xx" contains the query phrase
of terms `aaa bbb ccc ddd`, the permuted chunk "bbb aaa ccc ddd xx" does not,
and all other score components agree. -/
theorem C7_phrase_score_monotonic_witness :
    subStr (List.intercalate (" ".data)
        ["aaa".data, "bbb".data, "ccc".data, "ddd".data])
      (lowerStr ("aaa bbb ccc ddd xx".data)) = true ∧
    subStr (List.intercalate (" ".data)
        ["aaa".data, "bbb".data, "ccc".data, "ddd".data])
      (lowerStr ("bbb aaa ccc ddd xx".data)) = false ∧
    calculateSemanticScore ["aaa".data, "bbb".data, "ccc".data, "ddd".data]
        ⟨"bbb aaa ccc ddd xx".data, 1, 1, []⟩
        ⟨"d".data, "doc".data, 1, DocStatus.ready, 0, [], [], [], none, none, none⟩ <
      calculateSemanticScore ["aaa".data, "bbb".data, "ccc".data, "ddd".data]
        ⟨"aaa bbb ccc ddd xx".data, 1, 0, []⟩
        ⟨"d".data, "doc".data, 1, DocStatus.ready, 0, [], [], [], none, none, none⟩ :=
  ⟨by decide, by decide,
    C7_phrase_score_monotonic
      ["aaa".data, "bbb".data, "ccc".data, "ddd".data]
      ⟨"aaa bbb ccc ddd xx".data, 1, 0, []⟩
      ⟨"bbb aaa ccc ddd xx".data, 1, 1, []⟩
      ⟨"d".data, "doc".data, 1, DocStatus.ready, 0, [], [], [], none, none, none⟩
      (by decide) (by decide) (by decide) (by decide) (by decide) (by decide)⟩

/-- C7 counterexample: both chunks have length 19, identical per-term
substring and word-boundary matches and identical (zero) contextual scores;
the first contains the query phrase "aaa bbb ccc ddd" and the second does
not, yet the first scores 35 and the second 40, because the second has no
spaces and the density term divides the four matched terms by a word count
of one. -/
theorem C7_counterexample :
    subStr (List.intercalate (" ".data)
        ["aaa".data, "bbb".data, "ccc".data, "ddd".data])
      (lowerStr ("xaaa bbb ccc dddyzw".data)) = true ∧
    subStr (List.intercalate (" ".data)
        ["aaa".data, "bbb".data, "ccc".data, "ddd".data])
      (lowerStr ("qaaaq-bbb-ccc-qdddq".data)) = false ∧
    ("xaaa bbb ccc dddyzw".data : Str).length =
      ("qaaaq-bbb-ccc-qdddq".data : Str).length ∧
    (∀ w ∈ [("aaa".data : Str), "bbb".data, "ccc".data, "ddd".data],
      subStr w (lowerStr ("xaaa bbb ccc dddyzw".data)) =
        subStr w (lowerStr ("qaaaq-bbb-ccc-qdddq".data))) ∧
    (∀ w ∈ [("aaa".data : Str), "bbb".data, "ccc".data, "ddd".data],
      wbTest w (lowerStr ("xaaa bbb ccc dddyzw".data)) =
        wbTest w (lowerStr ("qaaaq-bbb-ccc-qdddq".data))) ∧
    eqaContextualScore (List.intercalate (" ".data)
        ["aaa".data, "bbb".data, "ccc".data, "ddd".data])
      (lowerStr ("xaaa bbb ccc dddyzw".data)) =
      eqaContextualScore (List.intercalate (" ".data)
        ["aaa".data, "bbb".data, "ccc".data, "ddd".data])
      (lowerStr ("qaaaq-bbb-ccc-qdddq".data)) ∧
    calculateSemanticScore ["aaa".data, "bbb".data, "ccc".data, "ddd".data]
        ⟨"xaaa bbb ccc dddyzw".data, 1, 0, []⟩
        ⟨"d".data, "doc".data, 1, DocStatus.ready, 0, [], [], [], none, none, none⟩ <
      calculateSemanticScore ["aaa".data, "bbb".data, "ccc".data, "ddd".data]
        ⟨"qaaaq-bbb-ccc-qdddq".data, 1, 1, []⟩
        ⟨"d".data, "doc".data, 1, DocStatus.ready, 0, [], [], [], none, none, none⟩ := by
  refine ⟨by decide, by decide, by decide, by decide, by decide, by decide, ?_⟩
  have hLA : lowerStr ("xaaa bbb ccc dddyzw".data) = "xaaa bbb ccc dddyzw".data := by
    decide
  have hLB : lowerStr ("qaaaq-bbb-ccc-qdddq".data) = "qaaaq-bbb-ccc-qdddq".data := by
    decide
  have hP : List.intercalate (" ".data)
      ["aaa".data, "bbb".data, "ccc".data, "ddd".data] = "aaa bbb ccc ddd".data := by
    decide
  have cxA : eqaContextualScore ("aaa bbb ccc ddd".data)
      ("xaaa bbb ccc dddyzw".data) = 0 := by decide
  have cxB : eqaContextualScore ("aaa bbb ccc ddd".data)
      ("qaaaq-bbb-ccc-qdddq".data) = 0 := by decide
  have mA : ((["aaa".data, "bbb".data, "ccc".data, "ddd".data] : List Str).filter
      (fun w => subStr w ("xaaa bbb ccc dddyzw".data))).length = 4 := by decide
  have mB : ((["aaa".data, "bbb".data, "ccc".data, "ddd".data] : List Str).filter
      (fun w => subStr w ("qaaaq-bbb-ccc-qdddq".data))).length = 4 := by decide
  have wA : (jsSplit jsSpace ("xaaa bbb ccc dddyzw".data)).length = 4 := by decide
  have wB : (jsSplit jsSpace ("qaaaq-bbb-ccc-qdddq".data)).length = 1 := by decide
  have tD : (["aaa".data, "bbb".data, "ccc".data, "ddd".data] : List Str).foldl
      (fun acc w => if subStr w (lowerStr ("doc".data)) then acc + 1 else acc)
      (0:ℚ) = 0 := by decide
  have s0A : subStr ("aaa bbb ccc ddd".data) ("xaaa bbb ccc dddyzw".data) = true := by
    decide
  have s0B : subStr ("aaa bbb ccc ddd".data) ("qaaaq-bbb-ccc-qdddq".data) = false := by
    decide
  have s1A : subStr ("aaa".data) ("xaaa bbb ccc dddyzw".data) = true := by decide
  have s2A : subStr ("bbb".data) ("xaaa bbb ccc dddyzw".data) = true := by decide
  have s3A : subStr ("ccc".data) ("xaaa bbb ccc dddyzw".data) = true := by decide
  have s4A : subStr ("ddd".data) ("xaaa bbb ccc dddyzw".data) = true := by decide
  have s1B : subStr ("aaa".data) ("qaaaq-bbb-ccc-qdddq".data) = true := by decide
  have s2B : subStr ("bbb".data) ("qaaaq-bbb-ccc-qdddq".data) = true := by decide
  have s3B : subStr ("ccc".data) ("qaaaq-bbb-ccc-qdddq".data) = true := by decide
  have s4B : subStr ("ddd".data) ("qaaaq-bbb-ccc-qdddq".data) = true := by decide
  have b1A : wbTest ("aaa".data) ("xaaa bbb ccc dddyzw".data) = false := by decide
  have b2A : wbTest ("bbb".data) ("xaaa bbb ccc dddyzw".data) = true := by decide
  have b3A : wbTest ("ccc".data) ("xaaa bbb ccc dddyzw".data) = true := by decide
  have b4A : wbTest ("ddd".data) ("xaaa bbb ccc dddyzw".data) = false := by decide
  have b1B : wbTest ("aaa".data) ("qaaaq-bbb-ccc-qdddq".data) = false := by decide
  have b2B : wbTest ("bbb".data) ("qaaaq-bbb-ccc-qdddq".data) = true := by decide
  have b3B : wbTest ("ccc".data) ("qaaaq-bbb-ccc-qdddq".data) = true := by decide
  have b4B : wbTest ("ddd".data) ("qaaaq-bbb-ccc-qdddq".data) = false := by decide
  simp only [calculateSemanticScore]
  rw [hLA, hLB, hP, cxA, cxB, mA, mB, wA, wB, tD]
  simp only [List.enum, List.enumFrom, List.foldl, s0A, s0B, s1A, s2A, s3A, s4A,
    s1B, s2B, s3B, s4B, b1A, b2A, b3A, b4A, b1B, b2B, b3B, b4B]
  norm_num
